import Mathlib

/-!
IPA register layer (`drivers/net/ipa/ipa_reg.h`) and the ASPM configuration of
the mt76 PCI glue (`drivers/net/wireless/mediatek/mt76/pci.c`)

A shallow embedding of the register offsets, field masks and the inline
helper functions of `ipa_reg.h`, and of the ASPM enable/disable functions of
`pci.c` as functions on an explicit device state.  Machine words are natural
numbers; a 32-bit unsigned result is reduced with `u32`.
-/

namespace IpaReg

/-! ## Machine words and the kernel helpers the header relies on -/

/-- Truncation of a natural number to an unsigned 32-bit word. -/
def u32 (x : Nat) : Nat := x % 2 ^ 32

/-- Modelled from the spec: `enum ipa_version` lives in `ipa_version.h`, which is
not part of the sources at hand.  The spec describes an ordered enumeration of
four revisions (A, B, C, D); a C enumeration is an integer, so a version is a
natural number and the four enumerators are numbered in declaration order. -/
abbrev ipa_version := Nat

/-- Modelled from the spec: revision A of `enum ipa_version` (IPA v3.5.1). -/
abbrev IPA_VERSION_3_5_1 : ipa_version := 0
/-- Modelled from the spec: revision B of `enum ipa_version` (IPA v4.0). -/
abbrev IPA_VERSION_4_0 : ipa_version := 1
/-- Modelled from the spec: revision C of `enum ipa_version` (IPA v4.1). -/
abbrev IPA_VERSION_4_1 : ipa_version := 2
/-- Modelled from the spec: revision D of `enum ipa_version` (IPA v4.2). -/
abbrev IPA_VERSION_4_2 : ipa_version := 3

/-- Modelled from the spec: `GENMASK(h, l)` comes from `linux/bits.h`, which is
not part of the sources at hand.  A field mask "encodes both the position and
width of the field": it is the word whose set bits are exactly the bits
`l .. h` (spec: Field Descriptor with `low_bit = l`, `high_bit = h`). -/
def GENMASK (h l : Nat) : Nat := 2 ^ (h + 1) - 2 ^ l

/-- Position of the lowest set bit of a 32-bit mask (0 for the empty mask):
the `low_bit` of the field the mask describes. -/
def low_bit (field : Nat) : Nat :=
  ((List.range 32).find? (fun i => field.testBit i)).getD 0

/-- The mask of a field moved down to bit 0: `2^width - 1` for a contiguous
field mask. -/
def field_mask (field : Nat) : Nat := field >>> low_bit field

/-- The error of the spec's Field Codec `encode`. -/
inductive EncodeError
  | ValueOutOfRange
  deriving DecidableEq, Repr

instance : DecidableEq (Except EncodeError Nat) := fun a b =>
  match a, b with
  | .ok x, .ok y =>
      if h : x = y then isTrue (by rw [h]) else isFalse (fun e => h (Except.ok.inj e))
  | .error x, .error y =>
      if h : x = y then isTrue (by rw [h]) else isFalse (fun e => h (Except.error.inj e))
  | .ok _, .error _ => isFalse (fun e => by cases e)
  | .error _, .ok _ => isFalse (fun e => by cases e)

/-- Modelled from the spec: `u32_encode_bits` comes from `linux/bitfield.h`,
which is not part of the sources at hand.  Spec, Field Codec `encode`: "fails
with `ValueOutOfRange` if `value > 2^width - 1` for the field's width;
otherwise returns `(value & mask) << low_bit`".  Position and width are taken
from the field mask the header passes (`field_mask` is `2^width - 1`); the bit
pattern is a 32-bit word. -/
def u32_encode_bits (v field : Nat) : Except EncodeError Nat :=
  if v > field_mask field then .error .ValueOutOfRange
  else .ok (u32 ((v &&& field_mask field) <<< low_bit field))

/-- Modelled from the spec: `u32_get_bits` comes from `linux/bitfield.h`, which
is not part of the sources at hand.  Spec, Field Codec `decode`: returns
`(register_word >> low_bit) & mask`. -/
def u32_get_bits (v field : Nat) : Nat :=
  (v >>> low_bit field) &&& field_mask field

/-! ## Indexed register offsets -/

def IPA_REG_SRC_RSRC_GRP_01_RSRC_TYPE_N_OFFSET (rt : Nat) : Nat :=
  u32 (0x00000400 + u32 (0x0020 * rt))
def IPA_REG_SRC_RSRC_GRP_23_RSRC_TYPE_N_OFFSET (rt : Nat) : Nat :=
  u32 (0x00000404 + u32 (0x0020 * rt))
def IPA_REG_SRC_RSRC_GRP_45_RSRC_TYPE_N_OFFSET (rt : Nat) : Nat :=
  u32 (0x00000408 + u32 (0x0020 * rt))
def IPA_REG_DST_RSRC_GRP_01_RSRC_TYPE_N_OFFSET (rt : Nat) : Nat :=
  u32 (0x00000500 + u32 (0x0020 * rt))
def IPA_REG_DST_RSRC_GRP_23_RSRC_TYPE_N_OFFSET (rt : Nat) : Nat :=
  u32 (0x00000504 + u32 (0x0020 * rt))
def IPA_REG_DST_RSRC_GRP_45_RSRC_TYPE_N_OFFSET (rt : Nat) : Nat :=
  u32 (0x00000508 + u32 (0x0020 * rt))

def IPA_REG_ENDP_INIT_CTRL_N_OFFSET (ep : Nat) : Nat :=
  u32 (0x00000800 + u32 (0x0070 * ep))
def IPA_REG_ENDP_INIT_CFG_N_OFFSET (ep : Nat) : Nat :=
  u32 (0x00000808 + u32 (0x0070 * ep))
def IPA_REG_ENDP_INIT_HDR_N_OFFSET (ep : Nat) : Nat :=
  u32 (0x00000810 + u32 (0x0070 * ep))
def IPA_REG_ENDP_INIT_HDR_EXT_N_OFFSET (ep : Nat) : Nat :=
  u32 (0x00000814 + u32 (0x0070 * ep))
def IPA_REG_ENDP_INIT_HDR_METADATA_MASK_N_OFFSET (rxep : Nat) : Nat :=
  u32 (0x00000818 + u32 (0x0070 * rxep))
def IPA_REG_ENDP_INIT_MODE_N_OFFSET (txep : Nat) : Nat :=
  u32 (0x00000820 + u32 (0x0070 * txep))
def IPA_REG_ENDP_INIT_AGGR_N_OFFSET (ep : Nat) : Nat :=
  u32 (0x00000824 + u32 (0x0070 * ep))
def IPA_REG_ENDP_INIT_HOL_BLOCK_EN_N_OFFSET (rxep : Nat) : Nat :=
  u32 (0x0000082c + u32 (0x0070 * rxep))
def IPA_REG_ENDP_INIT_HOL_BLOCK_TIMER_N_OFFSET (rxep : Nat) : Nat :=
  u32 (0x00000830 + u32 (0x0070 * rxep))
def IPA_REG_ENDP_INIT_DEAGGR_N_OFFSET (txep : Nat) : Nat :=
  u32 (0x00000834 + u32 (0x0070 * txep))
def IPA_REG_ENDP_INIT_RSRC_GRP_N_OFFSET (ep : Nat) : Nat :=
  u32 (0x00000838 + u32 (0x0070 * ep))
def IPA_REG_ENDP_INIT_SEQ_N_OFFSET (txep : Nat) : Nat :=
  u32 (0x0000083c + u32 (0x0070 * txep))
def IPA_REG_ENDP_STATUS_N_OFFSET (ep : Nat) : Nat :=
  u32 (0x00000840 + u32 (0x0070 * ep))
def IPA_REG_ENDP_FILTER_ROUTER_HSH_CFG_N_OFFSET (er : Nat) : Nat :=
  u32 (0x0000085c + u32 (0x0070 * er))

def IPA_REG_IRQ_STTS_EE_N_OFFSET (ee : Nat) : Nat :=
  u32 (0x00003008 + u32 (0x1000 * ee))
def IPA_REG_IRQ_EN_EE_N_OFFSET (ee : Nat) : Nat :=
  u32 (0x0000300c + u32 (0x1000 * ee))
def IPA_REG_IRQ_CLR_EE_N_OFFSET (ee : Nat) : Nat :=
  u32 (0x00003010 + u32 (0x1000 * ee))
def IPA_REG_IRQ_UC_EE_N_OFFSET (ee : Nat) : Nat :=
  u32 (0x0000301c + u32 (0x1000 * ee))
def IPA_REG_IRQ_SUSPEND_INFO_EE_N_OFFSET (ee : Nat) : Nat :=
  u32 (0x00003030 + u32 (0x1000 * ee))
def IPA_REG_IRQ_SUSPEND_EN_EE_N_OFFSET (ee : Nat) : Nat :=
  u32 (0x00003034 + u32 (0x1000 * ee))
def IPA_REG_IRQ_SUSPEND_CLR_EE_N_OFFSET (ee : Nat) : Nat :=
  u32 (0x00003038 + u32 (0x1000 * ee))

/-! ## Constant and version-dependent register offsets -/

def IPA_REG_COMP_CFG_OFFSET : Nat := 0x0000003c
def IPA_REG_CLKON_CFG_OFFSET : Nat := 0x00000044
def IPA_REG_ROUTE_OFFSET : Nat := 0x00000048
def IPA_REG_SHARED_MEM_SIZE_OFFSET : Nat := 0x00000054
def IPA_REG_QSB_MAX_WRITES_OFFSET : Nat := 0x00000074
def IPA_REG_QSB_MAX_READS_OFFSET : Nat := 0x00000078
def IPA_REG_BCR_OFFSET : Nat := 0x000001d0
def IPA_REG_LOCAL_PKT_PROC_CNTXT_BASE_OFFSET : Nat := 0x000001e8
def IPA_REG_AGGR_FORCE_CLOSE_OFFSET : Nat := 0x000001ec
def IPA_REG_COUNTER_CFG_OFFSET : Nat := 0x000001f0
def IPA_REG_TX_CFG_OFFSET : Nat := 0x000001fc
def IPA_REG_FLAVOR_0_OFFSET : Nat := 0x00000210

def ipa_reg_filt_rout_hash_en_offset (version : ipa_version) : Nat :=
  if version = IPA_VERSION_3_5_1 then 0x000008c else 0x0000148

def ipa_reg_filt_rout_hash_flush_offset (version : ipa_version) : Nat :=
  if version = IPA_VERSION_3_5_1 then 0x0000090 else 0x000014c

def ipa_reg_state_aggr_active_offset (version : ipa_version) : Nat :=
  if version = IPA_VERSION_3_5_1 then 0x0000010c else 0x000000b4

def ipa_reg_idle_indication_cfg_offset (version : ipa_version) : Nat :=
  if version = IPA_VERSION_4_2 then 0x00000240 else 0x00000220


/-! ## Field masks -/

/-! Fields defined under `IPA_REG_COMP_CFG_OFFSET` -/

-- The next field is not supported for IPA v4.1
def ENABLE_FMASK : Nat := GENMASK 0 0
def GSI_SNOC_BYPASS_DIS_FMASK : Nat := GENMASK 1 1
def GEN_QMB_0_SNOC_BYPASS_DIS_FMASK : Nat := GENMASK 2 2
def GEN_QMB_1_SNOC_BYPASS_DIS_FMASK : Nat := GENMASK 3 3
def IPA_DCMP_FAST_CLK_EN_FMASK : Nat := GENMASK 4 4
-- The remaining fields are not present for IPA v3.5.1
def IPA_QMB_SELECT_CONS_EN_FMASK : Nat := GENMASK 5 5
def IPA_QMB_SELECT_PROD_EN_FMASK : Nat := GENMASK 6 6
def GSI_MULTI_INORDER_RD_DIS_FMASK : Nat := GENMASK 7 7
def GSI_MULTI_INORDER_WR_DIS_FMASK : Nat := GENMASK 8 8
def GEN_QMB_0_MULTI_INORDER_RD_DIS_FMASK : Nat := GENMASK 9 9
def GEN_QMB_1_MULTI_INORDER_RD_DIS_FMASK : Nat := GENMASK 10 10
def GEN_QMB_0_MULTI_INORDER_WR_DIS_FMASK : Nat := GENMASK 11 11
def GEN_QMB_1_MULTI_INORDER_WR_DIS_FMASK : Nat := GENMASK 12 12
def GEN_QMB_0_SNOC_CNOC_LOOP_PROT_DIS_FMASK : Nat := GENMASK 13 13
def GSI_SNOC_CNOC_LOOP_PROT_DISABLE_FMASK : Nat := GENMASK 14 14
def GSI_MULTI_AXI_MASTERS_DIS_FMASK : Nat := GENMASK 15 15
def IPA_QMB_SELECT_GLOBAL_EN_FMASK : Nat := GENMASK 16 16
def IPA_ATOMIC_FETCHER_ARB_LOCK_DIS_FMASK : Nat := GENMASK 20 17

/-! Fields defined under `IPA_REG_CLKON_CFG_OFFSET` -/

def RX_FMASK : Nat := GENMASK 0 0
def PROC_FMASK : Nat := GENMASK 1 1
def TX_WRAPPER_FMASK : Nat := GENMASK 2 2
def MISC_FMASK : Nat := GENMASK 3 3
def RAM_ARB_FMASK : Nat := GENMASK 4 4
def FTCH_HPS_FMASK : Nat := GENMASK 5 5
def FTCH_DPS_FMASK : Nat := GENMASK 6 6
def HPS_FMASK : Nat := GENMASK 7 7
def DPS_FMASK : Nat := GENMASK 8 8
def RX_HPS_CMDQS_FMASK : Nat := GENMASK 9 9
def HPS_DPS_CMDQS_FMASK : Nat := GENMASK 10 10
def DPS_TX_CMDQS_FMASK : Nat := GENMASK 11 11
def RSRC_MNGR_FMASK : Nat := GENMASK 12 12
def CTX_HANDLER_FMASK : Nat := GENMASK 13 13
def ACK_MNGR_FMASK : Nat := GENMASK 14 14
def D_DCPH_FMASK : Nat := GENMASK 15 15
def H_DCPH_FMASK : Nat := GENMASK 16 16
def DCMP_FMASK : Nat := GENMASK 17 17
def NTF_TX_CMDQS_FMASK : Nat := GENMASK 18 18
def TX_0_FMASK : Nat := GENMASK 19 19
def TX_1_FMASK : Nat := GENMASK 20 20
def FNR_FMASK : Nat := GENMASK 21 21
-- The remaining fields are not present for IPA v3.5.1
def QSB2AXI_CMDQ_L_FMASK : Nat := GENMASK 22 22
def AGGR_WRAPPER_FMASK : Nat := GENMASK 23 23
def RAM_SLAVEWAY_FMASK : Nat := GENMASK 24 24
def QMB_FMASK : Nat := GENMASK 25 25
def WEIGHT_ARB_FMASK : Nat := GENMASK 26 26
def GSI_IF_FMASK : Nat := GENMASK 27 27
def GLOBAL_FMASK : Nat := GENMASK 28 28
def GLOBAL_2X_CLK_FMASK : Nat := GENMASK 29 29

/-! Fields defined under `IPA_REG_ROUTE_OFFSET` -/

def ROUTE_DIS_FMASK : Nat := GENMASK 0 0
def ROUTE_DEF_PIPE_FMASK : Nat := GENMASK 5 1
def ROUTE_DEF_HDR_TABLE_FMASK : Nat := GENMASK 6 6
def ROUTE_DEF_HDR_OFST_FMASK : Nat := GENMASK 16 7
def ROUTE_FRAG_DEF_PIPE_FMASK : Nat := GENMASK 21 17
def ROUTE_DEF_RETAIN_HDR_FMASK : Nat := GENMASK 24 24

/-! Fields defined under `IPA_REG_SHARED_MEM_SIZE_OFFSET` -/

def SHARED_MEM_SIZE_FMASK : Nat := GENMASK 15 0
def SHARED_MEM_BADDR_FMASK : Nat := GENMASK 31 16

/-! Fields defined under `IPA_REG_QSB_MAX_WRITES_OFFSET` -/

def GEN_QMB_0_MAX_WRITES_FMASK : Nat := GENMASK 3 0
def GEN_QMB_1_MAX_WRITES_FMASK : Nat := GENMASK 7 4

/-! Fields defined under `IPA_REG_QSB_MAX_READS_OFFSET` -/

def GEN_QMB_0_MAX_READS_FMASK : Nat := GENMASK 3 0
def GEN_QMB_1_MAX_READS_FMASK : Nat := GENMASK 7 4
-- The next two fields are not present for IPA v3.5.1
def GEN_QMB_0_MAX_READS_BEATS_FMASK : Nat := GENMASK 23 16
def GEN_QMB_1_MAX_READS_BEATS_FMASK : Nat := GENMASK 31 24

/-! Fields defined under `ipa_reg_filt_rout_hash_flush_offset` -/

-- The next four fields are used for the hash enable and flush registers
def IPV6_ROUTER_HASH_FMASK : Nat := GENMASK 0 0
def IPV6_FILTER_HASH_FMASK : Nat := GENMASK 4 4
def IPV4_ROUTER_HASH_FMASK : Nat := GENMASK 8 8
def IPV4_FILTER_HASH_FMASK : Nat := GENMASK 12 12

/-! Fields defined under `IPA_REG_BCR_OFFSET` -/

-- The next two fields are not present for IPA v4.2
def BCR_CMDQ_L_LACK_ONE_ENTRY_FMASK : Nat := GENMASK 0 0
def BCR_TX_NOT_USING_BRESP_FMASK : Nat := GENMASK 1 1
-- The next field is invalid for IPA v4.1
def BCR_TX_SUSPEND_IRQ_ASSERT_ONCE_FMASK : Nat := GENMASK 2 2
-- The next two fields are not present for IPA v4.2
def BCR_SUSPEND_L2_IRQ_FMASK : Nat := GENMASK 3 3
def BCR_HOLB_DROP_L2_IRQ_FMASK : Nat := GENMASK 4 4
def BCR_DUAL_TX_FMASK : Nat := GENMASK 5 5
def BCR_ENABLE_FILTER_DATA_CACHE_FMASK : Nat := GENMASK 6 6
def BCR_NOTIF_PRIORITY_OVER_ZLT_FMASK : Nat := GENMASK 7 7
def BCR_FILTER_PREFETCH_EN_FMASK : Nat := GENMASK 8 8
def BCR_ROUTER_PREFETCH_EN_FMASK : Nat := GENMASK 9 9

/-! Fields defined under `IPA_REG_COUNTER_CFG_OFFSET` -/

def AGGR_GRANULARITY_FMASK : Nat := GENMASK 8 4

/-! Fields defined under `IPA_REG_TX_CFG_OFFSET` -/

-- The first three fields are present for IPA v3.5.1 only
def TX0_PREFETCH_DISABLE_FMASK : Nat := GENMASK 0 0
def TX1_PREFETCH_DISABLE_FMASK : Nat := GENMASK 1 1
def PREFETCH_ALMOST_EMPTY_SIZE_FMASK : Nat := GENMASK 4 2
-- The next six fields are present for IPA v4.0 and above
def PREFETCH_ALMOST_EMPTY_SIZE_TX0_FMASK : Nat := GENMASK 5 2
def DMAW_SCND_OUTSD_PRED_THRESHOLD_FMASK : Nat := GENMASK 9 6
def DMAW_SCND_OUTSD_PRED_EN_FMASK : Nat := GENMASK 10 10
def DMAW_MAX_BEATS_256_DIS_FMASK : Nat := GENMASK 11 11
def PA_MASK_EN_FMASK : Nat := GENMASK 12 12
def PREFETCH_ALMOST_EMPTY_SIZE_TX1_FMASK : Nat := GENMASK 16 13
-- The next two fields are present for IPA v4.2 only
def SSPND_PA_NO_START_STATE_FMASK : Nat := GENMASK 18 18
def SSPND_PA_NO_BQ_STATE_FMASK : Nat := GENMASK 19 19

/-! Fields defined under `IPA_REG_FLAVOR_0_OFFSET` -/

def IPA_MAX_PIPES_FMASK : Nat := GENMASK 3 0
def IPA_MAX_CONS_PIPES_FMASK : Nat := GENMASK 12 8
def IPA_MAX_PROD_PIPES_FMASK : Nat := GENMASK 20 16
def IPA_PROD_LOWEST_FMASK : Nat := GENMASK 27 24

/-! Fields defined under `ipa_reg_idle_indication_cfg_offset` -/

def ENTER_IDLE_DEBOUNCE_THRESH_FMASK : Nat := GENMASK 15 0
def CONST_NON_IDLE_ENABLE_FMASK : Nat := GENMASK 16 16

/-! Fields defined under `IPA_REG_DST_RSRC_GRP_45_RSRC_TYPE_N_OFFSET` -/

-- The next four fields are used for all resource group registers
def X_MIN_LIM_FMASK : Nat := GENMASK 5 0
def X_MAX_LIM_FMASK : Nat := GENMASK 13 8
-- The next two fields are not always present (if resource count is odd)
def Y_MIN_LIM_FMASK : Nat := GENMASK 21 16
def Y_MAX_LIM_FMASK : Nat := GENMASK 29 24

/-! Fields defined under `IPA_REG_ENDP_INIT_CTRL_N_OFFSET` -/

-- The next field should only used for IPA v3.5.1
def ENDP_SUSPEND_FMASK : Nat := GENMASK 0 0
def ENDP_DELAY_FMASK : Nat := GENMASK 1 1

/-! Fields defined under `IPA_REG_ENDP_INIT_CFG_N_OFFSET` -/

def FRAG_OFFLOAD_EN_FMASK : Nat := GENMASK 0 0
def CS_OFFLOAD_EN_FMASK : Nat := GENMASK 2 1
def CS_METADATA_HDR_OFFSET_FMASK : Nat := GENMASK 6 3
def CS_GEN_QMB_MASTER_SEL_FMASK : Nat := GENMASK 8 8

/-! Fields defined under `IPA_REG_ENDP_INIT_HDR_N_OFFSET` -/

def HDR_LEN_FMASK : Nat := GENMASK 5 0
def HDR_OFST_METADATA_VALID_FMASK : Nat := GENMASK 6 6
def HDR_OFST_METADATA_FMASK : Nat := GENMASK 12 7
def HDR_ADDITIONAL_CONST_LEN_FMASK : Nat := GENMASK 18 13
def HDR_OFST_PKT_SIZE_VALID_FMASK : Nat := GENMASK 19 19
def HDR_OFST_PKT_SIZE_FMASK : Nat := GENMASK 25 20
def HDR_A5_MUX_FMASK : Nat := GENMASK 26 26
def HDR_LEN_INC_DEAGG_HDR_FMASK : Nat := GENMASK 27 27
def HDR_METADATA_REG_VALID_FMASK : Nat := GENMASK 28 28

/-! Fields defined under `IPA_REG_ENDP_INIT_HDR_EXT_N_OFFSET` -/

def HDR_ENDIANNESS_FMASK : Nat := GENMASK 0 0
def HDR_TOTAL_LEN_OR_PAD_VALID_FMASK : Nat := GENMASK 1 1
def HDR_TOTAL_LEN_OR_PAD_FMASK : Nat := GENMASK 2 2
def HDR_PAYLOAD_LEN_INC_PADDING_FMASK : Nat := GENMASK 3 3
def HDR_TOTAL_LEN_OR_PAD_OFFSET_FMASK : Nat := GENMASK 9 4
def HDR_PAD_TO_ALIGNMENT_FMASK : Nat := GENMASK 13 10

/-! Fields defined under `IPA_REG_ENDP_INIT_MODE_N_OFFSET` -/

def MODE_FMASK : Nat := GENMASK 2 0
def DEST_PIPE_INDEX_FMASK : Nat := GENMASK 8 4
def BYTE_THRESHOLD_FMASK : Nat := GENMASK 27 12
def PIPE_REPLICATION_EN_FMASK : Nat := GENMASK 28 28
def PAD_EN_FMASK : Nat := GENMASK 29 29
def HDR_FTCH_DISABLE_FMASK : Nat := GENMASK 30 30

/-! Fields defined under `IPA_REG_ENDP_INIT_AGGR_N_OFFSET` -/

def AGGR_EN_FMASK : Nat := GENMASK 1 0
def AGGR_TYPE_FMASK : Nat := GENMASK 4 2
def AGGR_BYTE_LIMIT_FMASK : Nat := GENMASK 9 5
def AGGR_TIME_LIMIT_FMASK : Nat := GENMASK 14 10
def AGGR_PKT_LIMIT_FMASK : Nat := GENMASK 20 15
def AGGR_SW_EOF_ACTIVE_FMASK : Nat := GENMASK 21 21
def AGGR_FORCE_CLOSE_FMASK : Nat := GENMASK 22 22
def AGGR_HARD_BYTE_LIMIT_ENABLE_FMASK : Nat := GENMASK 24 24

/-! Fields defined under `IPA_REG_ENDP_INIT_HOL_BLOCK_EN_N_OFFSET` -/

def HOL_BLOCK_EN_FMASK : Nat := GENMASK 0 0

/-! Fields defined under `IPA_REG_ENDP_INIT_HOL_BLOCK_TIMER_N_OFFSET` -/

-- The next two fields are present for IPA v4.2 only
def BASE_VALUE_FMASK : Nat := GENMASK 4 0
def SCALE_FMASK : Nat := GENMASK 12 8

/-! Fields defined under `IPA_REG_ENDP_INIT_DEAGGR_N_OFFSET` -/

def DEAGGR_HDR_LEN_FMASK : Nat := GENMASK 5 0
def SYSPIPE_ERR_DETECTION_FMASK : Nat := GENMASK 6 6
def PACKET_OFFSET_VALID_FMASK : Nat := GENMASK 7 7
def PACKET_OFFSET_LOCATION_FMASK : Nat := GENMASK 13 8
def IGNORE_MIN_PKT_ERR_FMASK : Nat := GENMASK 14 14
def MAX_PACKET_LEN_FMASK : Nat := GENMASK 31 16

/-! Fields defined under `IPA_REG_ENDP_INIT_SEQ_N_OFFSET` -/

def HPS_SEQ_TYPE_FMASK : Nat := GENMASK 3 0
def DPS_SEQ_TYPE_FMASK : Nat := GENMASK 7 4
def HPS_REP_SEQ_TYPE_FMASK : Nat := GENMASK 11 8
def DPS_REP_SEQ_TYPE_FMASK : Nat := GENMASK 15 12

/-! Fields defined under `IPA_REG_ENDP_STATUS_N_OFFSET` -/

def STATUS_EN_FMASK : Nat := GENMASK 0 0
def STATUS_ENDP_FMASK : Nat := GENMASK 5 1
def STATUS_LOCATION_FMASK : Nat := GENMASK 8 8
-- The next field is not present for IPA v3.5.1
def STATUS_PKT_SUPPRESS_FMASK : Nat := GENMASK 9 9
-- The next register is only present for IPA versions that support hashing

/-! Fields defined under `IPA_REG_ENDP_FILTER_ROUTER_HSH_CFG_N_OFFSET` -/

def FILTER_HASH_MSK_SRC_ID_FMASK : Nat := GENMASK 0 0
def FILTER_HASH_MSK_SRC_IP_FMASK : Nat := GENMASK 1 1
def FILTER_HASH_MSK_DST_IP_FMASK : Nat := GENMASK 2 2
def FILTER_HASH_MSK_SRC_PORT_FMASK : Nat := GENMASK 3 3
def FILTER_HASH_MSK_DST_PORT_FMASK : Nat := GENMASK 4 4
def FILTER_HASH_MSK_PROTOCOL_FMASK : Nat := GENMASK 5 5
def FILTER_HASH_MSK_METADATA_FMASK : Nat := GENMASK 6 6
def IPA_REG_ENDP_FILTER_HASH_MSK_ALL : Nat := GENMASK 6 0
def ROUTER_HASH_MSK_SRC_ID_FMASK : Nat := GENMASK 16 16
def ROUTER_HASH_MSK_SRC_IP_FMASK : Nat := GENMASK 17 17
def ROUTER_HASH_MSK_DST_IP_FMASK : Nat := GENMASK 18 18
def ROUTER_HASH_MSK_SRC_PORT_FMASK : Nat := GENMASK 19 19
def ROUTER_HASH_MSK_DST_PORT_FMASK : Nat := GENMASK 20 20
def ROUTER_HASH_MSK_PROTOCOL_FMASK : Nat := GENMASK 21 21
def ROUTER_HASH_MSK_METADATA_FMASK : Nat := GENMASK 22 22
def IPA_REG_ENDP_ROUTER_HASH_MSK_ALL : Nat := GENMASK 22 16

/-! Fields defined under `IPA_REG_IRQ_UC_EE_N_OFFSET` -/

def UC_INTR_FMASK : Nat := GENMASK 0 0

/-! ## Inline helpers of the header -/

/-- Backward compatibility register value to use for each version. -/
def ipa_reg_bcr_val (version : ipa_version) : Nat :=
  if version = IPA_VERSION_3_5_1 then
    BCR_CMDQ_L_LACK_ONE_ENTRY_FMASK |||
      BCR_TX_NOT_USING_BRESP_FMASK |||
      BCR_SUSPEND_L2_IRQ_FMASK |||
      BCR_HOLB_DROP_L2_IRQ_FMASK |||
      BCR_DUAL_TX_FMASK
  else if version = IPA_VERSION_4_0 ∨ version = IPA_VERSION_4_1 then
    BCR_CMDQ_L_LACK_ONE_ENTRY_FMASK |||
      BCR_SUSPEND_L2_IRQ_FMASK |||
      BCR_HOLB_DROP_L2_IRQ_FMASK |||
      BCR_DUAL_TX_FMASK
  else 0x00000000

/-- The 32 KHz inactivity timer clock. -/
def TIMER_FREQUENCY : Nat := 32000

/-- Modelled from the spec: `USEC_PER_SEC` comes from the kernel's time headers,
which are not part of the sources at hand; the spec's granularity example
divides by `1_000_000`.  The kernel constant is a `long`, which is 64 bits wide
on the 64-bit targets of this driver. -/
def USEC_PER_SEC : Nat := 1000000

/-- Modelled from the spec: `DIV_ROUND_CLOSEST` comes from `linux/kernel.h`,
which is not part of the sources at hand.  Spec: the conversion uses
"round-to-nearest (not truncation)"; for non-negative operands that is
`(x + divisor / 2) / divisor`.  The sum is formed in the type of the divisor
(`long`), so it is not reduced modulo `2^32`. -/
def DIV_ROUND_CLOSEST (x divisor : Nat) : Nat := (x + divisor / 2) / divisor

/-- Conversion of a signed `long` result to the `u32` a function returns. -/
def u32_of_long (x : Int) : Nat := (x % 2 ^ 32).toNat

/-- Compute the value to use in the AGGR_GRANULARITY field representing the
given number of microseconds: `usec * TIMER_FREQUENCY` is a `u32` product, the
rounded quotient and the subtraction of one are `long`, the result is `u32`. -/
def ipa_aggr_granularity_val (usec : Nat) : Nat :=
  u32_of_long ((DIV_ROUND_CLOSEST (u32 (usec * TIMER_FREQUENCY)) USEC_PER_SEC : Nat) - 1)

/-- Number of IPA source resource groups available based on version. -/
def ipa_resource_group_src_count (version : ipa_version) : Nat :=
  if version = IPA_VERSION_3_5_1 ∨ version = IPA_VERSION_4_0 ∨ version = IPA_VERSION_4_1 then 4
  else if version = IPA_VERSION_4_2 then 1
  else 0

/-- Number of IPA destination resource groups available based on version. -/
def ipa_resource_group_dst_count (version : ipa_version) : Nat :=
  if version = IPA_VERSION_3_5_1 then 3
  else if version = IPA_VERSION_4_0 ∨ version = IPA_VERSION_4_1 then 4
  else if version = IPA_VERSION_4_2 then 1
  else 0

/-- The mask of the RSRC_GRP field of the RSRC_GRP endpoint register that
`rsrc_grp_encoded` selects for the version. -/
def rsrc_grp_fmask (version : ipa_version) : Nat :=
  if version = IPA_VERSION_4_2 then GENMASK 0 0 else GENMASK 1 0

/-- Encoded value for RSRC_GRP endpoint register RSRC_GRP field: what
`u32_encode_bits` yields for the field of the version. -/
def rsrc_grp_encoded (version : ipa_version) (rsrc_grp : Nat) : Except EncodeError Nat :=
  if version = IPA_VERSION_4_2 then u32_encode_bits rsrc_grp (GENMASK 0 0)
  else u32_encode_bits rsrc_grp (GENMASK 1 0)

/-! ## The registers of the header -/

/-- The registers named by `ipa_reg.h`.  The shorthands
`IPA_REG_IRQ_*_OFFSET` are not listed separately: the header defines each of
them as the `_EE_N` register at `GSI_EE_AP`. -/
inductive Reg
  | COMP_CFG | CLKON_CFG | ROUTE | SHARED_MEM_SIZE | QSB_MAX_WRITES | QSB_MAX_READS
  | FILT_ROUT_HASH_EN | FILT_ROUT_HASH_FLUSH | STATE_AGGR_ACTIVE | BCR
  | LOCAL_PKT_PROC_CNTXT_BASE | AGGR_FORCE_CLOSE | COUNTER_CFG | TX_CFG | FLAVOR_0
  | IDLE_INDICATION_CFG
  | SRC_RSRC_GRP_01_RSRC_TYPE_N | SRC_RSRC_GRP_23_RSRC_TYPE_N | SRC_RSRC_GRP_45_RSRC_TYPE_N
  | DST_RSRC_GRP_01_RSRC_TYPE_N | DST_RSRC_GRP_23_RSRC_TYPE_N | DST_RSRC_GRP_45_RSRC_TYPE_N
  | ENDP_INIT_CTRL_N | ENDP_INIT_CFG_N | ENDP_INIT_HDR_N | ENDP_INIT_HDR_EXT_N
  | ENDP_INIT_HDR_METADATA_MASK_N | ENDP_INIT_MODE_N | ENDP_INIT_AGGR_N
  | ENDP_INIT_HOL_BLOCK_EN_N | ENDP_INIT_HOL_BLOCK_TIMER_N | ENDP_INIT_DEAGGR_N
  | ENDP_INIT_RSRC_GRP_N | ENDP_INIT_SEQ_N | ENDP_STATUS_N | ENDP_FILTER_ROUTER_HSH_CFG_N
  | IRQ_STTS_EE_N | IRQ_EN_EE_N | IRQ_CLR_EE_N | IRQ_UC_EE_N
  | IRQ_SUSPEND_INFO_EE_N | IRQ_SUSPEND_EN_EE_N | IRQ_SUSPEND_CLR_EE_N
  deriving DecidableEq, Repr, Fintype

/-- What the parameter of a register's offset macro stands for. -/
inductive IndexKind
  | none | resource_type | endpoint | execution_environment
  deriving DecidableEq, Repr

open Reg in
/-- The parameter of each register's offset macro (`rt`, `ep`/`txep`/`rxep`/`er`,
`ee`), or `none` for a register whose offset takes no index. -/
def index_kind : Reg → IndexKind
  | SRC_RSRC_GRP_01_RSRC_TYPE_N | SRC_RSRC_GRP_23_RSRC_TYPE_N | SRC_RSRC_GRP_45_RSRC_TYPE_N
  | DST_RSRC_GRP_01_RSRC_TYPE_N | DST_RSRC_GRP_23_RSRC_TYPE_N
  | DST_RSRC_GRP_45_RSRC_TYPE_N => .resource_type
  | ENDP_INIT_CTRL_N | ENDP_INIT_CFG_N | ENDP_INIT_HDR_N | ENDP_INIT_HDR_EXT_N
  | ENDP_INIT_HDR_METADATA_MASK_N | ENDP_INIT_MODE_N | ENDP_INIT_AGGR_N
  | ENDP_INIT_HOL_BLOCK_EN_N | ENDP_INIT_HOL_BLOCK_TIMER_N | ENDP_INIT_DEAGGR_N
  | ENDP_INIT_RSRC_GRP_N | ENDP_INIT_SEQ_N | ENDP_STATUS_N
  | ENDP_FILTER_ROUTER_HSH_CFG_N => .endpoint
  | IRQ_STTS_EE_N | IRQ_EN_EE_N | IRQ_CLR_EE_N | IRQ_UC_EE_N
  | IRQ_SUSPEND_INFO_EE_N | IRQ_SUSPEND_EN_EE_N | IRQ_SUSPEND_CLR_EE_N => .execution_environment
  | _ => .none

open Reg in
/-- The offset the header gives for a register, a version and an index: the
constant, the inline function of the version, or the function-like macro of
the index.  The index is ignored by a register that has none. -/
def reg_offset (version : ipa_version) (r : Reg) (idx : Nat) : Nat :=
  match r with
  | COMP_CFG => IPA_REG_COMP_CFG_OFFSET
  | CLKON_CFG => IPA_REG_CLKON_CFG_OFFSET
  | ROUTE => IPA_REG_ROUTE_OFFSET
  | SHARED_MEM_SIZE => IPA_REG_SHARED_MEM_SIZE_OFFSET
  | QSB_MAX_WRITES => IPA_REG_QSB_MAX_WRITES_OFFSET
  | QSB_MAX_READS => IPA_REG_QSB_MAX_READS_OFFSET
  | FILT_ROUT_HASH_EN => ipa_reg_filt_rout_hash_en_offset version
  | FILT_ROUT_HASH_FLUSH => ipa_reg_filt_rout_hash_flush_offset version
  | STATE_AGGR_ACTIVE => ipa_reg_state_aggr_active_offset version
  | BCR => IPA_REG_BCR_OFFSET
  | LOCAL_PKT_PROC_CNTXT_BASE => IPA_REG_LOCAL_PKT_PROC_CNTXT_BASE_OFFSET
  | AGGR_FORCE_CLOSE => IPA_REG_AGGR_FORCE_CLOSE_OFFSET
  | COUNTER_CFG => IPA_REG_COUNTER_CFG_OFFSET
  | TX_CFG => IPA_REG_TX_CFG_OFFSET
  | FLAVOR_0 => IPA_REG_FLAVOR_0_OFFSET
  | IDLE_INDICATION_CFG => ipa_reg_idle_indication_cfg_offset version
  | SRC_RSRC_GRP_01_RSRC_TYPE_N => IPA_REG_SRC_RSRC_GRP_01_RSRC_TYPE_N_OFFSET idx
  | SRC_RSRC_GRP_23_RSRC_TYPE_N => IPA_REG_SRC_RSRC_GRP_23_RSRC_TYPE_N_OFFSET idx
  | SRC_RSRC_GRP_45_RSRC_TYPE_N => IPA_REG_SRC_RSRC_GRP_45_RSRC_TYPE_N_OFFSET idx
  | DST_RSRC_GRP_01_RSRC_TYPE_N => IPA_REG_DST_RSRC_GRP_01_RSRC_TYPE_N_OFFSET idx
  | DST_RSRC_GRP_23_RSRC_TYPE_N => IPA_REG_DST_RSRC_GRP_23_RSRC_TYPE_N_OFFSET idx
  | DST_RSRC_GRP_45_RSRC_TYPE_N => IPA_REG_DST_RSRC_GRP_45_RSRC_TYPE_N_OFFSET idx
  | ENDP_INIT_CTRL_N => IPA_REG_ENDP_INIT_CTRL_N_OFFSET idx
  | ENDP_INIT_CFG_N => IPA_REG_ENDP_INIT_CFG_N_OFFSET idx
  | ENDP_INIT_HDR_N => IPA_REG_ENDP_INIT_HDR_N_OFFSET idx
  | ENDP_INIT_HDR_EXT_N => IPA_REG_ENDP_INIT_HDR_EXT_N_OFFSET idx
  | ENDP_INIT_HDR_METADATA_MASK_N => IPA_REG_ENDP_INIT_HDR_METADATA_MASK_N_OFFSET idx
  | ENDP_INIT_MODE_N => IPA_REG_ENDP_INIT_MODE_N_OFFSET idx
  | ENDP_INIT_AGGR_N => IPA_REG_ENDP_INIT_AGGR_N_OFFSET idx
  | ENDP_INIT_HOL_BLOCK_EN_N => IPA_REG_ENDP_INIT_HOL_BLOCK_EN_N_OFFSET idx
  | ENDP_INIT_HOL_BLOCK_TIMER_N => IPA_REG_ENDP_INIT_HOL_BLOCK_TIMER_N_OFFSET idx
  | ENDP_INIT_DEAGGR_N => IPA_REG_ENDP_INIT_DEAGGR_N_OFFSET idx
  | ENDP_INIT_RSRC_GRP_N => IPA_REG_ENDP_INIT_RSRC_GRP_N_OFFSET idx
  | ENDP_INIT_SEQ_N => IPA_REG_ENDP_INIT_SEQ_N_OFFSET idx
  | ENDP_STATUS_N => IPA_REG_ENDP_STATUS_N_OFFSET idx
  | ENDP_FILTER_ROUTER_HSH_CFG_N => IPA_REG_ENDP_FILTER_ROUTER_HSH_CFG_N_OFFSET idx
  | IRQ_STTS_EE_N => IPA_REG_IRQ_STTS_EE_N_OFFSET idx
  | IRQ_EN_EE_N => IPA_REG_IRQ_EN_EE_N_OFFSET idx
  | IRQ_CLR_EE_N => IPA_REG_IRQ_CLR_EE_N_OFFSET idx
  | IRQ_UC_EE_N => IPA_REG_IRQ_UC_EE_N_OFFSET idx
  | IRQ_SUSPEND_INFO_EE_N => IPA_REG_IRQ_SUSPEND_INFO_EE_N_OFFSET idx
  | IRQ_SUSPEND_EN_EE_N => IPA_REG_IRQ_SUSPEND_EN_EE_N_OFFSET idx
  | IRQ_SUSPEND_CLR_EE_N => IPA_REG_IRQ_SUSPEND_CLR_EE_N_OFFSET idx

/-- Number of index values the offset of a register is considered for:
a register without index has the single index 0, a resource type is below 8,
an endpoint below 32 (`IPA_ENDPOINT_MAX`), an execution environment below 4. -/
def index_limit : IndexKind → Nat
  | .none => 1
  | .resource_type => 8
  | .endpoint => 32
  | .execution_environment => 4

/-- The stride of the offset macros of each kind of index. -/
def stride : IndexKind → Nat
  | .none => 0
  | .resource_type => 0x0020
  | .endpoint => 0x0070
  | .execution_environment => 0x1000

/-- The index is legal for the register. -/
def legal_index (r : Reg) (idx : Nat) : Prop := idx < index_limit (index_kind r)

instance (r : Reg) (idx : Nat) : Decidable (legal_index r idx) := by
  unfold legal_index; infer_instance

/-- The register offsets depend on the version only through its comparison
with v3.5.1 and v4.2: a representative version with the same comparisons. -/
def version_class (version : ipa_version) : ipa_version :=
  if version = IPA_VERSION_3_5_1 then IPA_VERSION_3_5_1
  else if version = IPA_VERSION_4_2 then IPA_VERSION_4_2 else IPA_VERSION_4_0

open Reg in
/-- The field masks the header documents as present in a register on a
version, following the comments that restrict a field to some versions.  The
symbols `IPA_REG_ENDP_FILTER_HASH_MSK_ALL` and `IPA_REG_ENDP_ROUTER_HASH_MSK_ALL`
are not fields (they carry no `_FMASK` suffix and name the union of seven
fields each), and the RSRC_GRP field is the one `rsrc_grp_encoded` uses for
the version. -/
def fields (version : ipa_version) : Reg → List Nat
  | COMP_CFG =>
      (if version = IPA_VERSION_4_1 then [] else [ENABLE_FMASK]) ++
      [GSI_SNOC_BYPASS_DIS_FMASK, GEN_QMB_0_SNOC_BYPASS_DIS_FMASK,
        GEN_QMB_1_SNOC_BYPASS_DIS_FMASK, IPA_DCMP_FAST_CLK_EN_FMASK] ++
      (if version = IPA_VERSION_3_5_1 then [] else
        [IPA_QMB_SELECT_CONS_EN_FMASK, IPA_QMB_SELECT_PROD_EN_FMASK,
          GSI_MULTI_INORDER_RD_DIS_FMASK, GSI_MULTI_INORDER_WR_DIS_FMASK,
          GEN_QMB_0_MULTI_INORDER_RD_DIS_FMASK, GEN_QMB_1_MULTI_INORDER_RD_DIS_FMASK,
          GEN_QMB_0_MULTI_INORDER_WR_DIS_FMASK, GEN_QMB_1_MULTI_INORDER_WR_DIS_FMASK,
          GEN_QMB_0_SNOC_CNOC_LOOP_PROT_DIS_FMASK, GSI_SNOC_CNOC_LOOP_PROT_DISABLE_FMASK,
          GSI_MULTI_AXI_MASTERS_DIS_FMASK, IPA_QMB_SELECT_GLOBAL_EN_FMASK,
          IPA_ATOMIC_FETCHER_ARB_LOCK_DIS_FMASK])
  | CLKON_CFG =>
      [RX_FMASK, PROC_FMASK, TX_WRAPPER_FMASK, MISC_FMASK, RAM_ARB_FMASK, FTCH_HPS_FMASK,
        FTCH_DPS_FMASK, HPS_FMASK, DPS_FMASK, RX_HPS_CMDQS_FMASK, HPS_DPS_CMDQS_FMASK,
        DPS_TX_CMDQS_FMASK, RSRC_MNGR_FMASK, CTX_HANDLER_FMASK, ACK_MNGR_FMASK, D_DCPH_FMASK,
        H_DCPH_FMASK, DCMP_FMASK, NTF_TX_CMDQS_FMASK, TX_0_FMASK, TX_1_FMASK, FNR_FMASK] ++
      (if version = IPA_VERSION_3_5_1 then [] else
        [QSB2AXI_CMDQ_L_FMASK, AGGR_WRAPPER_FMASK, RAM_SLAVEWAY_FMASK, QMB_FMASK,
          WEIGHT_ARB_FMASK, GSI_IF_FMASK, GLOBAL_FMASK, GLOBAL_2X_CLK_FMASK])
  | ROUTE =>
      [ROUTE_DIS_FMASK, ROUTE_DEF_PIPE_FMASK, ROUTE_DEF_HDR_TABLE_FMASK,
        ROUTE_DEF_HDR_OFST_FMASK, ROUTE_FRAG_DEF_PIPE_FMASK, ROUTE_DEF_RETAIN_HDR_FMASK]
  | SHARED_MEM_SIZE => [SHARED_MEM_SIZE_FMASK, SHARED_MEM_BADDR_FMASK]
  | QSB_MAX_WRITES => [GEN_QMB_0_MAX_WRITES_FMASK, GEN_QMB_1_MAX_WRITES_FMASK]
  | QSB_MAX_READS =>
      [GEN_QMB_0_MAX_READS_FMASK, GEN_QMB_1_MAX_READS_FMASK] ++
      (if version = IPA_VERSION_3_5_1 then [] else
        [GEN_QMB_0_MAX_READS_BEATS_FMASK, GEN_QMB_1_MAX_READS_BEATS_FMASK])
  | FILT_ROUT_HASH_EN | FILT_ROUT_HASH_FLUSH =>
      [IPV6_ROUTER_HASH_FMASK, IPV6_FILTER_HASH_FMASK, IPV4_ROUTER_HASH_FMASK,
        IPV4_FILTER_HASH_FMASK]
  | STATE_AGGR_ACTIVE => []
  | BCR =>
      (if version = IPA_VERSION_4_2 then [] else
        [BCR_CMDQ_L_LACK_ONE_ENTRY_FMASK, BCR_TX_NOT_USING_BRESP_FMASK]) ++
      (if version = IPA_VERSION_4_1 then [] else [BCR_TX_SUSPEND_IRQ_ASSERT_ONCE_FMASK]) ++
      (if version = IPA_VERSION_4_2 then [] else
        [BCR_SUSPEND_L2_IRQ_FMASK, BCR_HOLB_DROP_L2_IRQ_FMASK]) ++
      [BCR_DUAL_TX_FMASK, BCR_ENABLE_FILTER_DATA_CACHE_FMASK, BCR_NOTIF_PRIORITY_OVER_ZLT_FMASK,
        BCR_FILTER_PREFETCH_EN_FMASK, BCR_ROUTER_PREFETCH_EN_FMASK]
  | LOCAL_PKT_PROC_CNTXT_BASE => []
  | AGGR_FORCE_CLOSE => []
  | COUNTER_CFG => [AGGR_GRANULARITY_FMASK]
  | TX_CFG =>
      (if version = IPA_VERSION_3_5_1 then
        [TX0_PREFETCH_DISABLE_FMASK, TX1_PREFETCH_DISABLE_FMASK,
          PREFETCH_ALMOST_EMPTY_SIZE_FMASK] else []) ++
      (if IPA_VERSION_4_0 ≤ version then
        [PREFETCH_ALMOST_EMPTY_SIZE_TX0_FMASK, DMAW_SCND_OUTSD_PRED_THRESHOLD_FMASK,
          DMAW_SCND_OUTSD_PRED_EN_FMASK, DMAW_MAX_BEATS_256_DIS_FMASK, PA_MASK_EN_FMASK,
          PREFETCH_ALMOST_EMPTY_SIZE_TX1_FMASK] else []) ++
      (if version = IPA_VERSION_4_2 then
        [SSPND_PA_NO_START_STATE_FMASK, SSPND_PA_NO_BQ_STATE_FMASK] else [])
  | FLAVOR_0 =>
      [IPA_MAX_PIPES_FMASK, IPA_MAX_CONS_PIPES_FMASK, IPA_MAX_PROD_PIPES_FMASK,
        IPA_PROD_LOWEST_FMASK]
  | IDLE_INDICATION_CFG => [ENTER_IDLE_DEBOUNCE_THRESH_FMASK, CONST_NON_IDLE_ENABLE_FMASK]
  | SRC_RSRC_GRP_01_RSRC_TYPE_N | SRC_RSRC_GRP_23_RSRC_TYPE_N | SRC_RSRC_GRP_45_RSRC_TYPE_N
  | DST_RSRC_GRP_01_RSRC_TYPE_N | DST_RSRC_GRP_23_RSRC_TYPE_N | DST_RSRC_GRP_45_RSRC_TYPE_N =>
      [X_MIN_LIM_FMASK, X_MAX_LIM_FMASK, Y_MIN_LIM_FMASK, Y_MAX_LIM_FMASK]
  | ENDP_INIT_CTRL_N =>
      (if version = IPA_VERSION_3_5_1 then [ENDP_SUSPEND_FMASK] else []) ++ [ENDP_DELAY_FMASK]
  | ENDP_INIT_CFG_N =>
      [FRAG_OFFLOAD_EN_FMASK, CS_OFFLOAD_EN_FMASK, CS_METADATA_HDR_OFFSET_FMASK,
        CS_GEN_QMB_MASTER_SEL_FMASK]
  | ENDP_INIT_HDR_N =>
      [HDR_LEN_FMASK, HDR_OFST_METADATA_VALID_FMASK, HDR_OFST_METADATA_FMASK,
        HDR_ADDITIONAL_CONST_LEN_FMASK, HDR_OFST_PKT_SIZE_VALID_FMASK, HDR_OFST_PKT_SIZE_FMASK,
        HDR_A5_MUX_FMASK, HDR_LEN_INC_DEAGG_HDR_FMASK, HDR_METADATA_REG_VALID_FMASK]
  | ENDP_INIT_HDR_EXT_N =>
      [HDR_ENDIANNESS_FMASK, HDR_TOTAL_LEN_OR_PAD_VALID_FMASK, HDR_TOTAL_LEN_OR_PAD_FMASK,
        HDR_PAYLOAD_LEN_INC_PADDING_FMASK, HDR_TOTAL_LEN_OR_PAD_OFFSET_FMASK,
        HDR_PAD_TO_ALIGNMENT_FMASK]
  | ENDP_INIT_HDR_METADATA_MASK_N => []
  | ENDP_INIT_MODE_N =>
      [ MODE_FMASK, DEST_PIPE_INDEX_FMASK, BYTE_THRESHOLD_FMASK, PIPE_REPLICATION_EN_FMASK,
        PAD_EN_FMASK, HDR_FTCH_DISABLE_FMASK]
  | ENDP_INIT_AGGR_N =>
      [AGGR_EN_FMASK, AGGR_TYPE_FMASK, AGGR_BYTE_LIMIT_FMASK, AGGR_TIME_LIMIT_FMASK,
        AGGR_PKT_LIMIT_FMASK, AGGR_SW_EOF_ACTIVE_FMASK, AGGR_FORCE_CLOSE_FMASK,
        AGGR_HARD_BYTE_LIMIT_ENABLE_FMASK]
  | ENDP_INIT_HOL_BLOCK_EN_N => [HOL_BLOCK_EN_FMASK]
  | ENDP_INIT_HOL_BLOCK_TIMER_N =>
      if version = IPA_VERSION_4_2 then [BASE_VALUE_FMASK, SCALE_FMASK] else []
  | ENDP_INIT_DEAGGR_N =>
      [DEAGGR_HDR_LEN_FMASK, SYSPIPE_ERR_DETECTION_FMASK, PACKET_OFFSET_VALID_FMASK,
        PACKET_OFFSET_LOCATION_FMASK, IGNORE_MIN_PKT_ERR_FMASK, MAX_PACKET_LEN_FMASK]
  | ENDP_INIT_RSRC_GRP_N => [rsrc_grp_fmask version]
  | ENDP_INIT_SEQ_N =>
      [HPS_SEQ_TYPE_FMASK, DPS_SEQ_TYPE_FMASK, HPS_REP_SEQ_TYPE_FMASK, DPS_REP_SEQ_TYPE_FMASK]
  | ENDP_STATUS_N =>
      [STATUS_EN_FMASK, STATUS_ENDP_FMASK, STATUS_LOCATION_FMASK] ++
      (if version = IPA_VERSION_3_5_1 then [] else [STATUS_PKT_SUPPRESS_FMASK])
  | ENDP_FILTER_ROUTER_HSH_CFG_N =>
      [FILTER_HASH_MSK_SRC_ID_FMASK, FILTER_HASH_MSK_SRC_IP_FMASK, FILTER_HASH_MSK_DST_IP_FMASK,
        FILTER_HASH_MSK_SRC_PORT_FMASK, FILTER_HASH_MSK_DST_PORT_FMASK,
        FILTER_HASH_MSK_PROTOCOL_FMASK, FILTER_HASH_MSK_METADATA_FMASK,
        ROUTER_HASH_MSK_SRC_ID_FMASK, ROUTER_HASH_MSK_SRC_IP_FMASK, ROUTER_HASH_MSK_DST_IP_FMASK,
        ROUTER_HASH_MSK_SRC_PORT_FMASK, ROUTER_HASH_MSK_DST_PORT_FMASK,
        ROUTER_HASH_MSK_PROTOCOL_FMASK, ROUTER_HASH_MSK_METADATA_FMASK]
  | IRQ_STTS_EE_N | IRQ_EN_EE_N | IRQ_CLR_EE_N => []
  | IRQ_UC_EE_N => [UC_INTR_FMASK]
  | IRQ_SUSPEND_INFO_EE_N | IRQ_SUSPEND_EN_EE_N | IRQ_SUSPEND_CLR_EE_N => []

/-- Two field masks share no bit position. -/
def disjoint_masks (a b : Nat) : Prop := a &&& b = 0

instance (a b : Nat) : Decidable (disjoint_masks a b) := by
  unfold disjoint_masks; infer_instance

/-! ## Enumerated field values -/

/-- Checksum offload field in ENDP_INIT_CFG_N (`enum ipa_cs_offload_en`). -/
inductive ipa_cs_offload_en
  | IPA_CS_OFFLOAD_NONE | IPA_CS_OFFLOAD_UL | IPA_CS_OFFLOAD_DL
  deriving DecidableEq, Repr, Fintype

/-- The integer value of an `ipa_cs_offload_en` enumerator. -/
def ipa_cs_offload_en.val : ipa_cs_offload_en → Nat
  | .IPA_CS_OFFLOAD_NONE => 0x0
  | .IPA_CS_OFFLOAD_UL => 0x1
  | .IPA_CS_OFFLOAD_DL => 0x2

/-- Mode field in ENDP_INIT_MODE_N (`enum ipa_mode`). -/
inductive ipa_mode
  | IPA_BASIC | IPA_ENABLE_FRAMING_HDLC | IPA_ENABLE_DEFRAMING_HDLC | IPA_DMA
  deriving DecidableEq, Repr, Fintype

/-- The integer value of an `ipa_mode` enumerator. -/
def ipa_mode.val : ipa_mode → Nat
  | .IPA_BASIC => 0x0
  | .IPA_ENABLE_FRAMING_HDLC => 0x1
  | .IPA_ENABLE_DEFRAMING_HDLC => 0x2
  | .IPA_DMA => 0x3

/-- Aggregation enable field in ENDP_INIT_AGGR_N (`enum ipa_aggr_en`). -/
inductive ipa_aggr_en
  | IPA_BYPASS_AGGR | IPA_ENABLE_AGGR | IPA_ENABLE_DEAGGR
  deriving DecidableEq, Repr, Fintype

/-- The integer value of an `ipa_aggr_en` enumerator. -/
def ipa_aggr_en.val : ipa_aggr_en → Nat
  | .IPA_BYPASS_AGGR => 0x0
  | .IPA_ENABLE_AGGR => 0x1
  | .IPA_ENABLE_DEAGGR => 0x2

/-- Aggregation type field in ENDP_INIT_AGGR_N (`enum ipa_aggr_type`). -/
inductive ipa_aggr_type
  | IPA_MBIM_16 | IPA_HDLC | IPA_TLP | IPA_RNDIS | IPA_GENERIC | IPA_COALESCE | IPA_QCMAP
  deriving DecidableEq, Repr, Fintype

/-- The integer value of an `ipa_aggr_type` enumerator. -/
def ipa_aggr_type.val : ipa_aggr_type → Nat
  | .IPA_MBIM_16 => 0x0
  | .IPA_HDLC => 0x1
  | .IPA_TLP => 0x2
  | .IPA_RNDIS => 0x3
  | .IPA_GENERIC => 0x4
  | .IPA_COALESCE => 0x5
  | .IPA_QCMAP => 0x6

/-- HPS and DPS sequencer type fields in ENDP_INIT_SEQ_N (`enum ipa_seq_type`).
The values are broken into 4-bit nibbles that are written into fields of the
INIT_SEQ_N endpoint registers. -/
inductive ipa_seq_type
  | IPA_SEQ_DMA_ONLY
  | IPA_SEQ_2ND_PKT_PROCESS_PASS_NO_DEC_UCP
  | IPA_SEQ_PKT_PROCESS_NO_DEC_NO_UCP_DMAP
  | IPA_SEQ_INVALID
  deriving DecidableEq, Repr, Fintype

/-- The integer value of an `ipa_seq_type` enumerator. -/
def ipa_seq_type.val : ipa_seq_type → Nat
  | .IPA_SEQ_DMA_ONLY => 0x0000
  | .IPA_SEQ_2ND_PKT_PROCESS_PASS_NO_DEC_UCP => 0x0004
  | .IPA_SEQ_PKT_PROCESS_NO_DEC_NO_UCP_DMAP => 0x0806
  | .IPA_SEQ_INVALID => 0xffff

/-- The 4-bit nibble `k` of a sequencer type value (nibble 0 is the lowest). -/
def seq_nibble (v k : Nat) : Nat := (v >>> (4 * k)) &&& 0xf

end IpaReg

/-! ## ASPM configuration of the mt76 PCI glue (`mt76/pci.c`) -/

namespace Mt76Pci

open IpaReg (u32)

/-- The register offsets and bit masks of `linux/pci_regs.h` that `pci.c`
refers to.  The header is not part of the sources at hand, so its constants
are parameters of the embedding. -/
structure pci_regs where
  PCI_EXP_LNKCAP : Nat
  PCI_EXP_LNKCAP_ASPMS : Nat
  PCI_EXP_LNKCTL : Nat
  PCI_EXP_LNKCTL_ASPMC : Nat
  PCI_EXT_CAP_ID_L1SS : Nat
  PCI_L1SS_CAP : Nat
  PCI_L1SS_CAP_PCIPM_L1_1 : Nat
  PCI_L1SS_CAP_PCIPM_L1_2 : Nat
  PCI_L1SS_CAP_ASPM_L1_1 : Nat
  PCI_L1SS_CAP_ASPM_L1_2 : Nat
  PCI_L1SS_CTL1 : Nat
  PCI_L1SS_CTL1_PCIPM_L1_1 : Nat
  PCI_L1SS_CTL1_PCIPM_L1_2 : Nat
  PCI_L1SS_CTL1_ASPM_L1_1 : Nat
  PCI_L1SS_CTL1_ASPM_L1_2 : Nat

/-- The PCI core functions `pci.c` calls, on a device state `σ`.  They are not
part of the sources at hand, so they are parameters of the embedding:
`read_config_dword s pos` is the word `pci_read_config_dword` stores through
its result pointer, `write_config_dword s pos val` the state after
`pci_write_config_dword`, `find_ext_capability s cap` the offset
`pci_find_ext_capability` returns. -/
structure pci_ops (σ : Type) where
  read_config_dword : σ → Nat → Nat
  write_config_dword : σ → Nat → Nat → σ
  find_ext_capability : σ → Nat → Nat

/-- The part of `struct pci_dev` that `pci.c` uses: the offset of the PCIe
capability and the device state behind the configuration accesses. -/
structure pci_dev (σ : Type) where
  pcie_cap : Nat
  hw : σ

/-- The 32-bit complement `~x` of a mask, as it is applied to a `u32`. -/
def not32 (x : Nat) : Nat := 0xffffffff ^^^ u32 x

/-- The L1 substates capability bits `pci.c` checks. -/
def PCIE_L1SS_CAP_CHK (R : pci_regs) : Nat :=
  R.PCI_L1SS_CAP_PCIPM_L1_1 ||| R.PCI_L1SS_CAP_PCIPM_L1_2 |||
    R.PCI_L1SS_CAP_ASPM_L1_1 ||| R.PCI_L1SS_CAP_ASPM_L1_2

/-- The L1 substates control bits `pci.c` sets and clears. -/
def PCIE_L1SS_CTL_CHK (R : pci_regs) : Nat :=
  R.PCI_L1SS_CTL1_PCIPM_L1_1 ||| R.PCI_L1SS_CTL1_PCIPM_L1_2 |||
    R.PCI_L1SS_CTL1_ASPM_L1_1 ||| R.PCI_L1SS_CTL1_ASPM_L1_2

/-- The function `_mt76_pci_config_L1`.  A null `pdev` is `none`; the result is
the device after the call.  `enable` is the `u8` flag. -/
def _mt76_pci_config_L1 {σ : Type} (R : pci_regs) (ops : pci_ops σ)
    (pdev : Option (pci_dev σ)) (enable : Nat) : Option (pci_dev σ) :=
  match pdev with
  | none => none
  | some d =>
    -- capability check
    let pos := d.pcie_cap
    let reg32 := u32 (ops.read_config_dword d.hw (pos + R.PCI_EXP_LNKCAP))
    if reg32 &&& R.PCI_EXP_LNKCAP_ASPMS = 0 then some d
    else
      -- set config
      let reg32 := u32 (ops.read_config_dword d.hw (pos + R.PCI_EXP_LNKCTL))
      if enable ≠ 0 then
        if reg32 &&& R.PCI_EXP_LNKCTL_ASPMC ≠ 0 then some d
        else
          let reg32 := u32 (reg32 ||| R.PCI_EXP_LNKCTL_ASPMC)
          some { d with hw := ops.write_config_dword d.hw (pos + R.PCI_EXP_LNKCTL) reg32 }
      else
        if reg32 &&& R.PCI_EXP_LNKCTL_ASPMC = 0 then some d
        else
          let reg32 := reg32 &&& not32 R.PCI_EXP_LNKCTL_ASPMC
          some { d with hw := ops.write_config_dword d.hw (pos + R.PCI_EXP_LNKCTL) reg32 }

/-- The function `_mt76_pci_config_L1ss`. -/
def _mt76_pci_config_L1ss {σ : Type} (R : pci_regs) (ops : pci_ops σ)
    (pdev : Option (pci_dev σ)) (enable : Nat) : Option (pci_dev σ) :=
  match pdev with
  | none => none
  | some d =>
    -- capability check
    let pos := ops.find_ext_capability d.hw R.PCI_EXT_CAP_ID_L1SS
    let reg32 := u32 (ops.read_config_dword d.hw (pos + R.PCI_L1SS_CAP))
    if reg32 &&& PCIE_L1SS_CAP_CHK R = 0 then some d
    else
      -- set config
      let reg32 := u32 (ops.read_config_dword d.hw (pos + R.PCI_L1SS_CTL1))
      if enable ≠ 0 then
        if reg32 &&& PCIE_L1SS_CTL_CHK R ≠ 0 then some d
        else
          let reg32 := u32 (reg32 ||| PCIE_L1SS_CTL_CHK R)
          some { d with hw := ops.write_config_dword d.hw (pos + R.PCI_L1SS_CTL1) reg32 }
      else
        if reg32 &&& PCIE_L1SS_CTL_CHK R = 0 then some d
        else
          let reg32 := reg32 &&& not32 (PCIE_L1SS_CTL_CHK R)
          some { d with hw := ops.write_config_dword d.hw (pos + R.PCI_L1SS_CTL1) reg32 }

/-- The function `mt76_pci_disable_aspm`: L1 first, then the L1 substates. -/
def mt76_pci_disable_aspm {σ : Type} (R : pci_regs) (ops : pci_ops σ)
    (pdev : Option (pci_dev σ)) : Option (pci_dev σ) :=
  _mt76_pci_config_L1ss R ops (_mt76_pci_config_L1 R ops pdev 0) 0

/-- The function `mt76_pci_enable_aspm`: the L1 substates first, then L1. -/
def mt76_pci_enable_aspm {σ : Type} (R : pci_regs) (ops : pci_ops σ)
    (pdev : Option (pci_dev σ)) : Option (pci_dev σ) :=
  _mt76_pci_config_L1 R ops (_mt76_pci_config_L1ss R ops pdev 1) 1

/-- The values `linux/pci_regs.h` gives the constants, used to instantiate the
parameters. -/
def linux_pci_regs : pci_regs where
  PCI_EXP_LNKCAP := 12
  PCI_EXP_LNKCAP_ASPMS := 0x00000c00
  PCI_EXP_LNKCTL := 16
  PCI_EXP_LNKCTL_ASPMC := 0x0003
  PCI_EXT_CAP_ID_L1SS := 0x1E
  PCI_L1SS_CAP := 0x04
  PCI_L1SS_CAP_PCIPM_L1_2 := 0x00000001
  PCI_L1SS_CAP_PCIPM_L1_1 := 0x00000002
  PCI_L1SS_CAP_ASPM_L1_2 := 0x00000004
  PCI_L1SS_CAP_ASPM_L1_1 := 0x00000008
  PCI_L1SS_CTL1 := 0x08
  PCI_L1SS_CTL1_PCIPM_L1_2 := 0x00000001
  PCI_L1SS_CTL1_PCIPM_L1_1 := 0x00000002
  PCI_L1SS_CTL1_ASPM_L1_2 := 0x00000004
  PCI_L1SS_CTL1_ASPM_L1_1 := 0x00000008

/-- A configuration space held as a map from offsets to 32-bit words, with the
L1 substates capability at a fixed offset: an instance of the PCI core
functions. -/
def map_ops (l1ss : Nat) : pci_ops (Nat → Nat) where
  read_config_dword := fun s pos => s pos
  write_config_dword := fun s pos val => fun a => if a = pos then u32 val else s a
  find_ext_capability := fun _ _ => l1ss

/-- A sample configuration space: PCIe capability at 0x80 with Link
Capabilities 0x0046dc12 and Link Control / Status 0x10120143, L1 substates
capability at 0x148 with capabilities 0x0028081f and control 0x4000000f. -/
def sample_config : Nat → Nat := fun a =>
  if a = 0x8c then 0x0046dc12
  else if a = 0x90 then 0x10120143
  else if a = 0x14c then 0x0028081f
  else if a = 0x150 then 0x4000000f
  else 0

end Mt76Pci

namespace IpaReg

/-! ## Theorems -/

/-- An offset `base + stride * idx` of the header does not wrap for an index up
to 32. -/
theorem u32_affine (b s i : Nat) (hb : b ≤ 0x3038) (hs : s ≤ 0x1000) (hi : i ≤ 32) :
    u32 (b + u32 (s * i)) = b + s * i := by
  have h1 : s * i ≤ 0x1000 * 32 := Nat.mul_le_mul hs hi
  have h2 : u32 (s * i) = s * i := Nat.mod_eq_of_lt (by norm_num; omega)
  rw [h2]
  exact Nat.mod_eq_of_lt (by norm_num; omega)

/-- C1: for every indexed register offset macro of the header (resource-group
registers, stride 0x20; endpoint registers, stride 0x70; execution-environment
registers, stride 0x1000), evaluated in 32-bit unsigned arithmetic, two
distinct indices below 32 give different offsets. -/
theorem indexed_offset_injective (version : ipa_version) (r : Reg) (i j : Nat)
    (hr : index_kind r ≠ IndexKind.none) (hi : i < 32) (hj : j < 32) (hij : i ≠ j) :
    reg_offset version r i ≠ reg_offset version r j := by
  cases r <;> simp [index_kind] at hr <;>
    simp only [reg_offset,
      IPA_REG_SRC_RSRC_GRP_01_RSRC_TYPE_N_OFFSET, IPA_REG_SRC_RSRC_GRP_23_RSRC_TYPE_N_OFFSET,
      IPA_REG_SRC_RSRC_GRP_45_RSRC_TYPE_N_OFFSET, IPA_REG_DST_RSRC_GRP_01_RSRC_TYPE_N_OFFSET,
      IPA_REG_DST_RSRC_GRP_23_RSRC_TYPE_N_OFFSET, IPA_REG_DST_RSRC_GRP_45_RSRC_TYPE_N_OFFSET,
      IPA_REG_ENDP_INIT_CTRL_N_OFFSET, IPA_REG_ENDP_INIT_CFG_N_OFFSET,
      IPA_REG_ENDP_INIT_HDR_N_OFFSET, IPA_REG_ENDP_INIT_HDR_EXT_N_OFFSET,
      IPA_REG_ENDP_INIT_HDR_METADATA_MASK_N_OFFSET, IPA_REG_ENDP_INIT_MODE_N_OFFSET,
      IPA_REG_ENDP_INIT_AGGR_N_OFFSET, IPA_REG_ENDP_INIT_HOL_BLOCK_EN_N_OFFSET,
      IPA_REG_ENDP_INIT_HOL_BLOCK_TIMER_N_OFFSET, IPA_REG_ENDP_INIT_DEAGGR_N_OFFSET,
      IPA_REG_ENDP_INIT_RSRC_GRP_N_OFFSET, IPA_REG_ENDP_INIT_SEQ_N_OFFSET,
      IPA_REG_ENDP_STATUS_N_OFFSET, IPA_REG_ENDP_FILTER_ROUTER_HSH_CFG_N_OFFSET,
      IPA_REG_IRQ_STTS_EE_N_OFFSET, IPA_REG_IRQ_EN_EE_N_OFFSET, IPA_REG_IRQ_CLR_EE_N_OFFSET,
      IPA_REG_IRQ_UC_EE_N_OFFSET, IPA_REG_IRQ_SUSPEND_INFO_EE_N_OFFSET,
      IPA_REG_IRQ_SUSPEND_EN_EE_N_OFFSET, IPA_REG_IRQ_SUSPEND_CLR_EE_N_OFFSET] <;>
    rw [u32_affine _ _ i (by decide) (by decide) (by omega),
      u32_affine _ _ j (by decide) (by decide) (by omega)] <;>
    omega

/-- Witness of C1: endpoint 0 and endpoint 31 of `ENDP_INIT_CTRL_N`. -/
theorem indexed_offset_injective_witness :
    reg_offset IPA_VERSION_4_2 Reg.ENDP_INIT_CTRL_N 0
      ≠ reg_offset IPA_VERSION_4_2 Reg.ENDP_INIT_CTRL_N 31 :=
  indexed_offset_injective IPA_VERSION_4_2 Reg.ENDP_INIT_CTRL_N 0 31
    (by decide) (by decide) (by decide) (by decide)

/-- A legal index is below 32 for every register. -/
theorem legal_index_lt (r : Reg) (i : Nat) (h : legal_index r i) : i < 32 := by
  cases r <;> simp only [legal_index, index_kind, index_limit] at h <;> omega

/-- Up to index 32 the offset of a register is its offset at index 0 plus the
stride of its kind times the index: the 32-bit arithmetic does not wrap. -/
theorem reg_offset_affine (version : ipa_version) (r : Reg) (i : Nat) (hi : i ≤ 32) :
    reg_offset version r i = reg_offset version r 0 + stride (index_kind r) * i := by
  cases r <;>
    simp only [reg_offset, index_kind, stride, Nat.zero_mul, Nat.add_zero, IPA_REG_SRC_RSRC_GRP_01_RSRC_TYPE_N_OFFSET, IPA_REG_SRC_RSRC_GRP_23_RSRC_TYPE_N_OFFSET,
      IPA_REG_SRC_RSRC_GRP_45_RSRC_TYPE_N_OFFSET, IPA_REG_DST_RSRC_GRP_01_RSRC_TYPE_N_OFFSET,
      IPA_REG_DST_RSRC_GRP_23_RSRC_TYPE_N_OFFSET, IPA_REG_DST_RSRC_GRP_45_RSRC_TYPE_N_OFFSET,
      IPA_REG_ENDP_INIT_CTRL_N_OFFSET, IPA_REG_ENDP_INIT_CFG_N_OFFSET,
      IPA_REG_ENDP_INIT_HDR_N_OFFSET, IPA_REG_ENDP_INIT_HDR_EXT_N_OFFSET,
      IPA_REG_ENDP_INIT_HDR_METADATA_MASK_N_OFFSET, IPA_REG_ENDP_INIT_MODE_N_OFFSET,
      IPA_REG_ENDP_INIT_AGGR_N_OFFSET, IPA_REG_ENDP_INIT_HOL_BLOCK_EN_N_OFFSET,
      IPA_REG_ENDP_INIT_HOL_BLOCK_TIMER_N_OFFSET, IPA_REG_ENDP_INIT_DEAGGR_N_OFFSET,
      IPA_REG_ENDP_INIT_RSRC_GRP_N_OFFSET, IPA_REG_ENDP_INIT_SEQ_N_OFFSET,
      IPA_REG_ENDP_STATUS_N_OFFSET, IPA_REG_ENDP_FILTER_ROUTER_HSH_CFG_N_OFFSET,
      IPA_REG_IRQ_STTS_EE_N_OFFSET, IPA_REG_IRQ_EN_EE_N_OFFSET, IPA_REG_IRQ_CLR_EE_N_OFFSET,
      IPA_REG_IRQ_UC_EE_N_OFFSET, IPA_REG_IRQ_SUSPEND_INFO_EE_N_OFFSET,
      IPA_REG_IRQ_SUSPEND_EN_EE_N_OFFSET, IPA_REG_IRQ_SUSPEND_CLR_EE_N_OFFSET] <;>
    rw [u32_affine _ _ i (by decide) (by decide) hi] <;> rfl

/-- The offset at index 0 lies in the band of the register's kind. -/
theorem base_band (version : ipa_version) (r : Reg) :
    match index_kind r with
    | .none => reg_offset version r 0 < 0x400
    | .resource_type =>
        (0x400 ≤ reg_offset version r 0 ∧ reg_offset version r 0 < 0x40c) ∨
        (0x500 ≤ reg_offset version r 0 ∧ reg_offset version r 0 < 0x50c)
    | .endpoint => 0x800 ≤ reg_offset version r 0 ∧ reg_offset version r 0 < 0x870
    | .execution_environment =>
        0x3000 ≤ reg_offset version r 0 ∧ reg_offset version r 0 < 0x4000 := by
  cases r <;>
    simp only [index_kind, reg_offset, ipa_reg_filt_rout_hash_en_offset,
      ipa_reg_filt_rout_hash_flush_offset, ipa_reg_state_aggr_active_offset,
      ipa_reg_idle_indication_cfg_offset, IPA_REG_COMP_CFG_OFFSET, IPA_REG_CLKON_CFG_OFFSET, IPA_REG_ROUTE_OFFSET,
      IPA_REG_SHARED_MEM_SIZE_OFFSET, IPA_REG_QSB_MAX_WRITES_OFFSET, IPA_REG_QSB_MAX_READS_OFFSET,
      IPA_REG_BCR_OFFSET, IPA_REG_LOCAL_PKT_PROC_CNTXT_BASE_OFFSET,
      IPA_REG_AGGR_FORCE_CLOSE_OFFSET, IPA_REG_COUNTER_CFG_OFFSET, IPA_REG_TX_CFG_OFFSET,
      IPA_REG_FLAVOR_0_OFFSET] <;>
    first
    | decide
    | (split <;> decide)

theorem reg_offset_version_class (version : ipa_version) (r : Reg) (i : Nat) :
    reg_offset version r i = reg_offset (version_class version) r i := by
  unfold version_class
  by_cases h0 : version = IPA_VERSION_3_5_1
  · simp [h0]
  · by_cases h3 : version = IPA_VERSION_4_2
    · simp [h3]
    · cases r <;> simp [reg_offset, h0, h3, ipa_reg_filt_rout_hash_en_offset,
        ipa_reg_filt_rout_hash_flush_offset, ipa_reg_state_aggr_active_offset,
        ipa_reg_idle_indication_cfg_offset]

/-- No two registers share their offset at index 0. -/
theorem base_injective (version : ipa_version) (r₁ r₂ : Reg)
    (h : reg_offset version r₁ 0 = reg_offset version r₂ 0) : r₁ = r₂ := by
  rw [reg_offset_version_class version r₁, reg_offset_version_class version r₂] at h
  have key : ∀ c ∈ [IPA_VERSION_3_5_1, IPA_VERSION_4_0, IPA_VERSION_4_2], ∀ a b : Reg,
      reg_offset c a 0 = reg_offset c b 0 → a = b := by decide
  refine key (version_class version) ?_ r₁ r₂ h
  unfold version_class
  split
  · simp
  · split <;> simp

/-- C2: for a fixed version the offset identifies the register and the index:
two pairs (register, legal index) of the header that resolve to the same
offset are the same register at the same index. -/
theorem offset_unique (version : ipa_version) (r₁ r₂ : Reg) (i₁ i₂ : Nat)
    (h₁ : legal_index r₁ i₁) (h₂ : legal_index r₂ i₂)
    (h : reg_offset version r₁ i₁ = reg_offset version r₂ i₂) :
    r₁ = r₂ ∧ i₁ = i₂ := by
  rw [reg_offset_affine version r₁ i₁ (Nat.le_of_lt (legal_index_lt r₁ i₁ h₁)),
    reg_offset_affine version r₂ i₂ (Nat.le_of_lt (legal_index_lt r₂ i₂ h₂))] at h
  have hb₁ := base_band version r₁
  have hb₂ := base_band version r₂
  have hinj := base_injective version r₁ r₂
  unfold legal_index at h₁ h₂
  generalize reg_offset version r₁ 0 = b₁ at h hb₁ hinj
  generalize reg_offset version r₂ 0 = b₂ at h hb₂ hinj
  generalize index_kind r₁ = k₁ at h h₁ hb₁
  generalize index_kind r₂ = k₂ at h h₂ hb₂
  have hbi : b₁ = b₂ ∧ i₁ = i₂ := by
    cases k₁ <;> cases k₂ <;> simp only [stride, index_limit] at h h₁ h₂ hb₁ hb₂ <;> omega
  exact ⟨hinj hbi.1, hbi.2⟩

/-- Witness of C2: `ENDP_INIT_CFG_N` at endpoint 5 on IPA v4.0, whose offset
is 0xa38. -/
theorem offset_unique_witness :
    reg_offset IPA_VERSION_4_0 Reg.ENDP_INIT_CFG_N 5 = 0xa38 ∧
      (Reg.ENDP_INIT_CFG_N = Reg.ENDP_INIT_CFG_N ∧ 5 = 5) :=
  ⟨by decide, offset_unique IPA_VERSION_4_0 Reg.ENDP_INIT_CFG_N Reg.ENDP_INIT_CFG_N 5 5
    (by decide) (by decide) rfl⟩

/-! ### Field codec -/

set_option maxRecDepth 100000 in
/-- Position and width of a contiguous field mask: the lowest set bit of
`GENMASK h l` is `l` and the mask moved down to bit 0 is `2^(h-l+1) - 1`. -/
theorem low_bit_field_mask_GENMASK :
    ∀ h < 32, ∀ l < h + 1,
      low_bit (GENMASK h l) = l ∧ field_mask (GENMASK h l) = 2 ^ (h - l + 1) - 1 := by
  decide

/-- Encoding into a contiguous field succeeds for a value of at most
`2^width - 1`: the value is moved to the position of the field, and the 32-bit
truncation changes nothing. -/
theorem encode_bits_GENMASK (h l v : Nat) (hl : l ≤ h) (hh : h ≤ 31)
    (hv : v ≤ 2 ^ (h - l + 1) - 1) :
    u32_encode_bits v (GENMASK h l) = .ok ((v &&& (2 ^ (h - l + 1) - 1)) <<< l) := by
  obtain ⟨h1, h2⟩ := low_bit_field_mask_GENMASK h (by omega) l (by omega)
  unfold u32_encode_bits u32
  rw [h1, h2, if_neg (by omega)]
  congr 1
  apply Nat.mod_eq_of_lt
  rw [Nat.and_pow_two_sub_one_eq_mod, Nat.shiftLeft_eq]
  calc v % 2 ^ (h - l + 1) * 2 ^ l < 2 ^ (h - l + 1) * 2 ^ l :=
        Nat.mul_lt_mul_of_pos_right (Nat.mod_lt _ (Nat.two_pow_pos _)) (Nat.two_pow_pos _)
    _ = 2 ^ (h + 1) := by rw [← Nat.pow_add]; congr 1; omega
    _ ≤ 2 ^ 32 := Nat.pow_le_pow_right (by decide) (by omega)

/-- Decoding the pattern of an in-range value at the position of its field. -/
theorem shift_and_roundtrip (h l v : Nat) (hv : v ≤ 2 ^ (h - l + 1) - 1) :
    (((v &&& (2 ^ (h - l + 1) - 1)) <<< l) >>> l) &&& (2 ^ (h - l + 1) - 1) = v := by
  have hpos : 0 < 2 ^ (h - l + 1) := Nat.two_pow_pos _
  have hv' : v < 2 ^ (h - l + 1) := by omega
  rw [Nat.and_pow_two_sub_one_of_lt_two_pow hv', Nat.shiftLeft_eq, Nat.shiftRight_eq_div_pow,
    Nat.mul_div_cancel _ (Nat.two_pow_pos _), Nat.and_pow_two_sub_one_of_lt_two_pow hv']

/-- Decoding a contiguous field of any word. -/
theorem get_bits_GENMASK (h l word : Nat) (hl : l ≤ h) (hh : h ≤ 31) :
    u32_get_bits word (GENMASK h l) = (word >>> l) &&& (2 ^ (h - l + 1) - 1) := by
  obtain ⟨h1, h2⟩ := low_bit_field_mask_GENMASK h (by omega) l (by omega)
  unfold u32_get_bits
  rw [h1, h2]

/-- Encoding an in-range value into a contiguous field succeeds, and decoding
the pattern returns the value. -/
theorem get_encode_GENMASK (h l v : Nat) (hl : l ≤ h) (hh : h ≤ 31)
    (hv : v ≤ 2 ^ (h - l + 1) - 1) :
    (u32_encode_bits v (GENMASK h l)).map (fun w => u32_get_bits w (GENMASK h l))
      = .ok v := by
  rw [encode_bits_GENMASK h l v hl hh hv]
  show Except.ok (u32_get_bits _ (GENMASK h l)) = Except.ok v
  rw [get_bits_GENMASK h l _ hl hh, shift_and_roundtrip h l v hv]

/-- A decoded contiguous field is at most `2^width - 1`. -/
theorem get_bits_GENMASK_le (h l word : Nat) (hl : l ≤ h) (hh : h ≤ 31) :
    u32_get_bits word (GENMASK h l) ≤ 2 ^ (h - l + 1) - 1 := by
  rw [get_bits_GENMASK h l word hl hh, Nat.and_pow_two_sub_one_eq_mod]
  have := Nat.mod_lt (word >>> l) (Nat.two_pow_pos (h - l + 1))
  omega

/-- C3: for a contiguous field mask `GENMASK(high, low)` with
`low <= high <= 31` (every field mask of the header is one) and every value
`v <= 2^(high-low+1) - 1`, encoding succeeds and decoding the encoded value
returns `v`; the same holds for the version-specific RSRC_GRP field that
`rsrc_grp_encoded` encodes into, for every version. -/
theorem field_roundtrip (high low v : Nat) (hl : low ≤ high) (hh : high ≤ 31)
    (hv : v ≤ 2 ^ (high - low + 1) - 1) :
    (u32_encode_bits v (GENMASK high low)).map (fun w => u32_get_bits w (GENMASK high low))
      = .ok v ∧
    ∀ version : ipa_version, v ≤ field_mask (rsrc_grp_fmask version) →
      (rsrc_grp_encoded version v).map (fun w => u32_get_bits w (rsrc_grp_fmask version))
        = .ok v := by
  refine ⟨get_encode_GENMASK high low v hl hh hv, ?_⟩
  intro version hg
  unfold rsrc_grp_encoded rsrc_grp_fmask at *
  split
  · rename_i h42
    rw [if_pos h42] at hg
    exact get_encode_GENMASK 0 0 v (by decide) (by decide)
      (by rw [(low_bit_field_mask_GENMASK 0 (by decide) 0 (by decide)).2] at hg; exact hg)
  · rename_i h42
    rw [if_neg h42] at hg
    exact get_encode_GENMASK 1 0 v (by decide) (by decide)
      (by rw [(low_bit_field_mask_GENMASK 1 (by decide) 0 (by decide)).2] at hg; exact hg)

/-- Witness of C3: the value 31 in the 5-bit field `AGGR_GRANULARITY`
(`GENMASK(8, 4)`). -/
theorem field_roundtrip_witness :
    u32_encode_bits 31 (GENMASK 8 4) = .ok 0x1f0 ∧
      (u32_encode_bits 31 (GENMASK 8 4)).map (fun w => u32_get_bits w (GENMASK 8 4))
        = .ok 31 :=
  ⟨by decide, (field_roundtrip 8 4 31 (by decide) (by decide) (by decide)).1⟩

/-- C4: on each of the four IPA versions, the field masks the header documents
as present in a register are pairwise disjoint, for every register; the two
overlapping TX_CFG masks PREFETCH_ALMOST_EMPTY_SIZE (bits 4:2, v3.5.1 only)
and PREFETCH_ALMOST_EMPTY_SIZE_TX0 (bits 5:2, v4.0 and above) are never
present on the same version.  The two `_MSK_ALL` symbols of
ENDP_FILTER_ROUTER_HSH_CFG_N are the unions of its seven filter and seven
router fields, not fields of their own. -/
theorem fields_pairwise_disjoint :
    (∀ version ∈ [IPA_VERSION_3_5_1, IPA_VERSION_4_0, IPA_VERSION_4_1, IPA_VERSION_4_2],
      (∀ r : Reg, (fields version r).Pairwise disjoint_masks) ∧
      ¬ (PREFETCH_ALMOST_EMPTY_SIZE_FMASK ∈ fields version Reg.TX_CFG ∧
          PREFETCH_ALMOST_EMPTY_SIZE_TX0_FMASK ∈ fields version Reg.TX_CFG)) ∧
    ¬ disjoint_masks PREFETCH_ALMOST_EMPTY_SIZE_FMASK PREFETCH_ALMOST_EMPTY_SIZE_TX0_FMASK ∧
    IPA_REG_ENDP_FILTER_HASH_MSK_ALL =
      ((fields IPA_VERSION_4_0 Reg.ENDP_FILTER_ROUTER_HSH_CFG_N).take 7).foldl Nat.lor 0 ∧
    IPA_REG_ENDP_ROUTER_HASH_MSK_ALL =
      ((fields IPA_VERSION_4_0 Reg.ENDP_FILTER_ROUTER_HSH_CFG_N).drop 7).foldl Nat.lor 0 := by
  decide

/-- Witness of C4: IPA v4.2, where TX_CFG has its eight v4.0+ and v4.2 fields. -/
theorem fields_pairwise_disjoint_witness :
    (fields IPA_VERSION_4_2 Reg.TX_CFG).length = 8 ∧
      (fields IPA_VERSION_4_2 Reg.TX_CFG).Pairwise disjoint_masks :=
  ⟨by decide, (fields_pairwise_disjoint.1 IPA_VERSION_4_2 (by decide)).1 Reg.TX_CFG⟩

/-! ### Version tables -/

/-- C5: the resource-group counts depend on the version only and follow the
fixed table: source/destination counts are 4/3 on IPA v3.5.1, 4/4 on v4.0 and
v4.1, 1/1 on v4.2 and 0/0 on every other version value. -/
theorem resource_group_counts (version : ipa_version) :
    (ipa_resource_group_src_count version, ipa_resource_group_dst_count version) =
      if version = IPA_VERSION_3_5_1 then (4, 3)
      else if version = IPA_VERSION_4_0 then (4, 4)
      else if version = IPA_VERSION_4_1 then (4, 4)
      else if version = IPA_VERSION_4_2 then (1, 1)
      else (0, 0) := by
  unfold ipa_resource_group_src_count ipa_resource_group_dst_count
  by_cases h0 : version = IPA_VERSION_3_5_1
  · simp [h0]
  · by_cases h1 : version = IPA_VERSION_4_0
    · simp [h1]
    · by_cases h2 : version = IPA_VERSION_4_1
      · simp [h2]
      · by_cases h3 : version = IPA_VERSION_4_2
        · simp [h3]
        · simp [h0, h1, h2, h3]

/-- The product `usec * TIMER_FREQUENCY` and the rounded quotient, in the range
where the product fits 32 bits. -/
theorem granularity_val_nat (usec : Nat) (h1 : 16 ≤ usec) (h2 : usec ≤ 134217) :
    ipa_aggr_granularity_val usec = (usec * 32000 + 500000) / 1000000 - 1 ∧
      1 ≤ (usec * 32000 + 500000) / 1000000 := by
  unfold ipa_aggr_granularity_val u32_of_long DIV_ROUND_CLOSEST u32 TIMER_FREQUENCY USEC_PER_SEC
  have hx : usec * 32000 % 2 ^ 32 = usec * 32000 := Nat.mod_eq_of_lt (by norm_num; omega)
  rw [hx]
  have e : (1000000 / 2 : Nat) = 500000 := by norm_num
  rw [e]
  have hq1 : 1 ≤ (usec * 32000 + 500000) / 1000000 := by omega
  have hq2 : (usec * 32000 + 500000) / 1000000 ≤ 4296 := by omega
  refine ⟨?_, hq1⟩
  generalize (usec * 32000 + 500000) / 1000000 = q at hq1 hq2
  have hp : (2 : Int) ^ 32 = 4294967296 := by norm_num
  rw [hp]
  omega

/-- C6: for `16 <= usec <= 134217` (so that `usec * 32000` fits 32 bits) the
granularity value is the number of 32000 Hz ticks in `usec` microseconds,
rounded to the nearest integer with ties up, minus one:
`(usec*32000 + 500000) / 1000000 - 1`, where the tick count `t = value + 1`
satisfies `t - 1/2 <= usec*32000/1000000 < t + 1/2`; for 1000 microseconds the
value is 31. -/
theorem granularity_val_rounds (usec : Nat) (h1 : 16 ≤ usec) (h2 : usec ≤ 134217) :
    ipa_aggr_granularity_val usec = (usec * 32000 + 500000) / 1000000 - 1 ∧
    2 * (ipa_aggr_granularity_val usec + 1) * 1000000 ≤ 2 * (usec * 32000) + 1000000 ∧
    2 * (usec * 32000) + 1000000 < 2 * (ipa_aggr_granularity_val usec + 2) * 1000000 ∧
    ipa_aggr_granularity_val 1000 = 31 := by
  obtain ⟨hv, hq⟩ := granularity_val_nat usec h1 h2
  refine ⟨hv, ?_, ?_, ?_⟩
  · rw [hv]; omega
  · rw [hv]; omega
  · rw [(granularity_val_nat 1000 (by decide) (by decide)).1]

/-- Witness of C6: 16 microseconds are 0.512 ticks, which rounds to one tick
(truncation would give none), so the value is 0. -/
theorem granularity_val_rounds_witness :
    16 * 32000 / 1000000 = 0 ∧ ipa_aggr_granularity_val 16 = 0 :=
  ⟨by decide, by
    rw [(granularity_val_rounds 16 (by decide) (by decide)).1]⟩

/-- C7: the version-dependent register offsets are a lookup on the version:
hash enable is 0x8c on IPA v3.5.1 and 0x148 otherwise, hash flush is 0x90 on
v3.5.1 and 0x14c otherwise (always hash enable + 4), STATE_AGGR_ACTIVE is
0x10c on v3.5.1 and 0xb4 otherwise, IDLE_INDICATION_CFG is 0x240 on v4.2 and
0x220 otherwise. -/
theorem version_dependent_offsets (version : ipa_version) :
    ipa_reg_filt_rout_hash_en_offset version
      = (if version = IPA_VERSION_3_5_1 then 0x8c else 0x148) ∧
    ipa_reg_filt_rout_hash_flush_offset version
      = (if version = IPA_VERSION_3_5_1 then 0x90 else 0x14c) ∧
    ipa_reg_filt_rout_hash_flush_offset version
      = ipa_reg_filt_rout_hash_en_offset version + 4 ∧
    ipa_reg_state_aggr_active_offset version
      = (if version = IPA_VERSION_3_5_1 then 0x10c else 0xb4) ∧
    ipa_reg_idle_indication_cfg_offset version
      = (if version = IPA_VERSION_4_2 then 0x240 else 0x220) := by
  unfold ipa_reg_filt_rout_hash_en_offset ipa_reg_filt_rout_hash_flush_offset
    ipa_reg_state_aggr_active_offset ipa_reg_idle_indication_cfg_offset
  refine ⟨rfl, rfl, ?_, rfl, rfl⟩
  split <;> rfl

/-- The value of `ipa_reg_bcr_val` on each version, as a number. -/
theorem bcr_val_cases (version : ipa_version) :
    ipa_reg_bcr_val version =
      if version = IPA_VERSION_3_5_1 then 0x3b
      else if version = IPA_VERSION_4_0 ∨ version = IPA_VERSION_4_1 then 0x39
      else 0 := by
  unfold ipa_reg_bcr_val
  split
  · decide
  · split
    · decide
    · rfl

/-- C8: the backward compatibility register value is a function of the version:
0x3b (CMDQ_L_LACK_ONE_ENTRY, TX_NOT_USING_BRESP, SUSPEND_L2_IRQ,
HOLB_DROP_L2_IRQ, DUAL_TX) on IPA v3.5.1, 0x39 (the same without
TX_NOT_USING_BRESP) on v4.0 and v4.1, and 0 on every other version, v4.2
included; every bit it sets lies in a BCR field the header documents as
present on that version, so bit 2 is clear on v4.1 and bits 0, 1, 3, 4 are
clear on v4.2. -/
theorem bcr_val_table (version : ipa_version) :
    ipa_reg_bcr_val version =
      (if version = IPA_VERSION_3_5_1 then 0x3b
        else if version = IPA_VERSION_4_0 ∨ version = IPA_VERSION_4_1 then 0x39
        else 0) ∧
    ipa_reg_bcr_val version &&& (fields version Reg.BCR).foldl Nat.lor 0
      = ipa_reg_bcr_val version ∧
    ipa_reg_bcr_val IPA_VERSION_3_5_1 =
      (BCR_CMDQ_L_LACK_ONE_ENTRY_FMASK ||| BCR_TX_NOT_USING_BRESP_FMASK |||
        BCR_SUSPEND_L2_IRQ_FMASK ||| BCR_HOLB_DROP_L2_IRQ_FMASK ||| BCR_DUAL_TX_FMASK) ∧
    ipa_reg_bcr_val IPA_VERSION_4_0 =
      (BCR_CMDQ_L_LACK_ONE_ENTRY_FMASK ||| BCR_SUSPEND_L2_IRQ_FMASK |||
        BCR_HOLB_DROP_L2_IRQ_FMASK ||| BCR_DUAL_TX_FMASK) ∧
    ipa_reg_bcr_val IPA_VERSION_4_1 &&& BCR_TX_SUSPEND_IRQ_ASSERT_ONCE_FMASK = 0 ∧
    ipa_reg_bcr_val IPA_VERSION_4_2 &&&
      (BCR_CMDQ_L_LACK_ONE_ENTRY_FMASK ||| BCR_TX_NOT_USING_BRESP_FMASK |||
        BCR_SUSPEND_L2_IRQ_FMASK ||| BCR_HOLB_DROP_L2_IRQ_FMASK) = 0 := by
  refine ⟨bcr_val_cases version, ?_, by decide, by decide, by decide, by decide⟩
  rw [bcr_val_cases version]
  by_cases h0 : version = IPA_VERSION_3_5_1
  · subst h0; decide
  · by_cases h1 : version = IPA_VERSION_4_0
    · subst h1; decide
    · by_cases h2 : version = IPA_VERSION_4_1
      · subst h2; decide
      · simp [h0, h1, h2]

/-- C9: decoding a contiguous field `GENMASK(high, low)` from any register word
is total and returns `(word >> low) & (2^width - 1)`, a value of at most
`2^width - 1`; for the FLAVOR_0 word the maximum number of pipes and the lowest
producer index are at most 15, the maximum numbers of consumer and producer
pipes at most 31. -/
theorem get_bits_decode (high low word : Nat) (hl : low ≤ high) (hh : high ≤ 31) :
    u32_get_bits word (GENMASK high low) = (word >>> low) &&& (2 ^ (high - low + 1) - 1) ∧
    u32_get_bits word (GENMASK high low) ≤ 2 ^ (high - low + 1) - 1 ∧
    u32_get_bits word IPA_MAX_PIPES_FMASK ≤ 15 ∧
    u32_get_bits word IPA_MAX_CONS_PIPES_FMASK ≤ 31 ∧
    u32_get_bits word IPA_MAX_PROD_PIPES_FMASK ≤ 31 ∧
    u32_get_bits word IPA_PROD_LOWEST_FMASK ≤ 15 :=
  ⟨get_bits_GENMASK high low word hl hh, get_bits_GENMASK_le high low word hl hh,
    get_bits_GENMASK_le 3 0 word (by decide) (by decide),
    get_bits_GENMASK_le 12 8 word (by decide) (by decide),
    get_bits_GENMASK_le 20 16 word (by decide) (by decide),
    get_bits_GENMASK_le 27 24 word (by decide) (by decide)⟩

/-- Witness of C9: the all-ones word decodes to the maximum of each FLAVOR_0
field. -/
theorem get_bits_decode_witness :
    u32_get_bits 0xffffffff (GENMASK 12 8) = (0xffffffff >>> 8) &&& (2 ^ (12 - 8 + 1) - 1) ∧
      u32_get_bits 0xffffffff IPA_MAX_CONS_PIPES_FMASK = 31 ∧
      u32_get_bits 0xffffffff IPA_MAX_PIPES_FMASK = 15 :=
  ⟨(get_bits_decode 12 8 0xffffffff (by decide) (by decide)).1, by decide, by decide⟩

/-! ### Index out of range -/

/-- C10 (counterexample): index 32 is one past the largest endpoint limit, it
is not a legal index of `ENDP_INIT_CTRL_N`, and the offset macro still yields
an offset value there: 0x1600, one stride past the offset for endpoint 31. -/
theorem endp_offset_at_limit_is_value :
    ¬ legal_index Reg.ENDP_INIT_CTRL_N 32 ∧
    reg_offset IPA_VERSION_4_2 Reg.ENDP_INIT_CTRL_N 32 = 0x1600 ∧
    IPA_REG_ENDP_INIT_CTRL_N_OFFSET 32 = IPA_REG_ENDP_INIT_CTRL_N_OFFSET 31 + 0x0070 := by
  decide

/-- C10 (amended): the endpoint offset macros check no range.  For an
endpoint-indexed register and an index equal to `max_endpoints` (one past the
limit, `max_endpoints <= 32`) they return the offset
`base + 0x70 * max_endpoints`, not wrapped, and that offset differs from the
offset of every endpoint below the limit. -/
theorem endp_offset_past_limit (version : ipa_version) (r : Reg) (max_endpoints : Nat)
    (hr : index_kind r = IndexKind.endpoint) (hm : max_endpoints ≤ 32) :
    reg_offset version r max_endpoints = reg_offset version r 0 + 0x0070 * max_endpoints ∧
    ∀ ep, ep < max_endpoints →
      reg_offset version r ep ≠ reg_offset version r max_endpoints := by
  have hs : stride (index_kind r) = 0x0070 := by rw [hr]; rfl
  constructor
  · rw [reg_offset_affine version r max_endpoints hm, hs]
  · intro ep hep
    rw [reg_offset_affine version r max_endpoints hm,
      reg_offset_affine version r ep (by omega), hs]
    omega

/-- Witness of C10 (amended): `ENDP_STATUS_N` with a limit of 20 endpoints. -/
theorem endp_offset_past_limit_witness :
    reg_offset IPA_VERSION_4_0 Reg.ENDP_STATUS_N 20
      = reg_offset IPA_VERSION_4_0 Reg.ENDP_STATUS_N 0 + 0x0070 * 20 ∧
    reg_offset IPA_VERSION_4_0 Reg.ENDP_STATUS_N 20 = 0x1100 :=
  ⟨(endp_offset_past_limit IPA_VERSION_4_0 Reg.ENDP_STATUS_N 20 (by decide) (by decide)).1,
    by decide⟩

/-! ### Encoding out of range, underflow and absent registers -/

/-- The width mask and the position of the RSRC_GRP field `rsrc_grp_encoded`
uses: one bit on IPA v4.2, two bits on every other version, at bit 0. -/
theorem rsrc_grp_fmask_width (version : ipa_version) :
    field_mask (rsrc_grp_fmask version) = (if version = IPA_VERSION_4_2 then 1 else 3) ∧
      low_bit (rsrc_grp_fmask version) = 0 := by
  obtain ⟨l0, m0⟩ := low_bit_field_mask_GENMASK 0 (by decide) 0 (by decide)
  obtain ⟨l1, m1⟩ := low_bit_field_mask_GENMASK 1 (by decide) 0 (by decide)
  unfold rsrc_grp_fmask
  split
  · rw [m0, l0]; exact ⟨rfl, rfl⟩
  · rw [m1, l1]; exact ⟨rfl, rfl⟩

/-- A resource group within the width mask of the version's RSRC_GRP field is
encoded as `(rsrc_grp & mask) << low_bit`, which is the group itself. -/
theorem rsrc_grp_encoded_ok (version : ipa_version) (rsrc_grp : Nat)
    (h : rsrc_grp ≤ field_mask (rsrc_grp_fmask version)) :
    rsrc_grp_encoded version rsrc_grp
        = .ok ((rsrc_grp &&& field_mask (rsrc_grp_fmask version))
            <<< low_bit (rsrc_grp_fmask version)) ∧
      rsrc_grp_encoded version rsrc_grp = .ok rsrc_grp := by
  obtain ⟨hm, hl⟩ := rsrc_grp_fmask_width version
  rw [hl]
  rw [hm] at h ⊢
  unfold rsrc_grp_encoded
  split
  · rename_i h42
    rw [if_pos h42] at h
    rw [encode_bits_GENMASK 0 0 rsrc_grp (by decide) (by decide) (by simpa using h)]
    have e : (rsrc_grp &&& (2 ^ (0 - 0 + 1) - 1)) = rsrc_grp :=
      Nat.and_pow_two_sub_one_of_lt_two_pow (by norm_num; omega)
    have e1 : (rsrc_grp &&& 1) = rsrc_grp := by simpa using e
    rw [e, e1]
    exact ⟨rfl, rfl⟩
  · rename_i h42
    rw [if_neg h42] at h
    rw [encode_bits_GENMASK 1 0 rsrc_grp (by decide) (by decide) (by simpa using h)]
    have e : (rsrc_grp &&& (2 ^ (1 - 0 + 1) - 1)) = rsrc_grp :=
      Nat.and_pow_two_sub_one_of_lt_two_pow (by norm_num; omega)
    have e3 : (rsrc_grp &&& 3) = rsrc_grp := by simpa using e
    rw [e, e3]
    exact ⟨rfl, rfl⟩

/-- A duration of at most 15 microseconds rounds to zero ticks, and the value
is zero minus one, wrapped to 32 bits. -/
theorem granularity_val_underflow (usec : Nat) (h : usec ≤ 15) :
    DIV_ROUND_CLOSEST (u32 (usec * TIMER_FREQUENCY)) USEC_PER_SEC = 0 ∧
      ipa_aggr_granularity_val usec = 0xffffffff := by
  have hq : DIV_ROUND_CLOSEST (u32 (usec * TIMER_FREQUENCY)) USEC_PER_SEC = 0 := by
    unfold DIV_ROUND_CLOSEST u32 TIMER_FREQUENCY USEC_PER_SEC
    have hx : usec * 32000 % 2 ^ 32 = usec * 32000 := Nat.mod_eq_of_lt (by norm_num; omega)
    rw [hx]
    omega
  refine ⟨hq, ?_⟩
  unfold ipa_aggr_granularity_val u32_of_long
  rw [hq]
  decide

/-- C12 (counterexample): 0 and 15 microseconds round to zero ticks, and the
conversion returns the word 0xffffffff for them. -/
theorem granularity_zero_ticks_is_value :
    DIV_ROUND_CLOSEST (u32 (0 * TIMER_FREQUENCY)) USEC_PER_SEC = 0 ∧
    ipa_aggr_granularity_val 0 = 0xffffffff ∧
    DIV_ROUND_CLOSEST (u32 (15 * TIMER_FREQUENCY)) USEC_PER_SEC = 0 ∧
    ipa_aggr_granularity_val 15 = 0xffffffff := by
  decide

/-- C12 (amended): the granularity conversion has no error result.  Within the
range where the product fits 32 bits (`usec <= 134217`) a duration rounds to
zero ticks exactly when `usec <= 15`, and for every such duration the
conversion returns the word 0xffffffff (zero ticks minus one, wrapped to 32
bits). -/
theorem granularity_underflow_wraps (usec : Nat) (h : usec ≤ 134217) :
    (DIV_ROUND_CLOSEST (u32 (usec * TIMER_FREQUENCY)) USEC_PER_SEC = 0 ↔ usec ≤ 15) ∧
    (usec ≤ 15 → ipa_aggr_granularity_val usec = 0xffffffff) := by
  refine ⟨⟨?_, fun h15 => (granularity_val_underflow usec h15).1⟩,
    fun h15 => (granularity_val_underflow usec h15).2⟩
  unfold DIV_ROUND_CLOSEST u32 TIMER_FREQUENCY USEC_PER_SEC
  have hx : usec * 32000 % 2 ^ 32 = usec * 32000 := Nat.mod_eq_of_lt (by norm_num; omega)
  rw [hx]
  intro h0
  omega

/-- Witness of C12 (amended): 7 microseconds. -/
theorem granularity_underflow_wraps_witness :
    ipa_aggr_granularity_val 7 = 0xffffffff :=
  (granularity_underflow_wraps 7 (by decide)).2 (by decide)

/-- C13 (counterexample): on IPA v4.2 the offsets of the hash enable and hash
flush registers and of ENDP_FILTER_ROUTER_HSH_CFG_N resolve to plain offsets,
as on every other version. -/
theorem hash_offsets_resolve_on_v4_2 :
    ipa_reg_filt_rout_hash_en_offset IPA_VERSION_4_2 = 0x148 ∧
    ipa_reg_filt_rout_hash_flush_offset IPA_VERSION_4_2 = 0x14c ∧
    IPA_REG_ENDP_FILTER_ROUTER_HSH_CFG_N_OFFSET 0 = 0x85c ∧
    reg_offset IPA_VERSION_4_2 Reg.ENDP_FILTER_ROUTER_HSH_CFG_N 5
      = reg_offset IPA_VERSION_4_0 Reg.ENDP_FILTER_ROUTER_HSH_CFG_N 5 := by
  decide

/-- C13 (amended): the header has no per-version existence flag for the
hashing-related registers.  On every version value the hash enable offset is
0x8c (IPA v3.5.1) or 0x148 (any other version), the hash flush offset 0x90 or
0x14c, and the offset of ENDP_FILTER_ROUTER_HSH_CFG_N is `0x85c + 0x70 * er`
whatever the version; that the register exists on the version is left to the
caller. -/
theorem hash_offsets_on_every_version (version : ipa_version) (er : Nat) (h : er < 32) :
    reg_offset version Reg.FILT_ROUT_HASH_EN 0
      = (if version = IPA_VERSION_3_5_1 then 0x8c else 0x148) ∧
    reg_offset version Reg.FILT_ROUT_HASH_FLUSH 0
      = (if version = IPA_VERSION_3_5_1 then 0x90 else 0x14c) ∧
    reg_offset version Reg.ENDP_FILTER_ROUTER_HSH_CFG_N er = 0x85c + 0x70 * er := by
  refine ⟨rfl, rfl, ?_⟩
  rw [reg_offset_affine version _ er (by omega)]
  rfl

/-- Witness of C13 (amended): filter/route 31 on an unknown version value. -/
theorem hash_offsets_on_every_version_witness :
    reg_offset 9 Reg.FILT_ROUT_HASH_EN 0 = 0x148 ∧
    reg_offset 9 Reg.ENDP_FILTER_ROUTER_HSH_CFG_N 31 = 0x85c + 0x70 * 31 :=
  ⟨(hash_offsets_on_every_version 9 31 (by decide)).1,
    (hash_offsets_on_every_version 9 31 (by decide)).2.2⟩

/-! ### Resource groups, granularity range, alignment -/

/-- C14: for every version and every resource group id `g` below the larger of
the source and destination group counts of the version, the RSRC_GRP field of
the version is wide enough for `g` and `rsrc_grp_encoded` returns `g`
unchanged. -/
theorem rsrc_grp_encoded_legal_group (version : ipa_version) (g : Nat)
    (hg : g < max (ipa_resource_group_src_count version)
      (ipa_resource_group_dst_count version)) :
    rsrc_grp_encoded version g = .ok g ∧ g ≤ field_mask (rsrc_grp_fmask version) := by
  have hfit : g ≤ field_mask (rsrc_grp_fmask version) := by
    rw [(rsrc_grp_fmask_width version).1]
    unfold ipa_resource_group_src_count ipa_resource_group_dst_count at hg
    by_cases h3 : version = IPA_VERSION_4_2
    · subst h3
      simp at hg
      subst hg
      simp
    · rw [if_neg h3]
      have hg4 : g < 4 := by
        by_cases h0 : version = IPA_VERSION_3_5_1
        · simp [h0] at hg; omega
        · by_cases h12 : version = IPA_VERSION_4_0 ∨ version = IPA_VERSION_4_1
          · have h012 : version = IPA_VERSION_3_5_1 ∨ version = IPA_VERSION_4_0 ∨
                version = IPA_VERSION_4_1 := Or.inr h12
            simp only [if_pos h012, if_neg h0, if_pos h12] at hg
            omega
          · have h012 : ¬ (version = IPA_VERSION_3_5_1 ∨ version = IPA_VERSION_4_0 ∨
                version = IPA_VERSION_4_1) := by
              intro h; rcases h with h | h | h
              · exact h0 h
              · exact h12 (Or.inl h)
              · exact h12 (Or.inr h)
            simp only [if_neg h012, if_neg h0, if_neg h12, if_neg h3] at hg
            omega
      omega
  exact ⟨(rsrc_grp_encoded_ok version g hfit).2, hfit⟩

/-- Witness of C14: group 3 on IPA v3.5.1, which has 4 source and 3 destination
groups. -/
theorem rsrc_grp_encoded_legal_group_witness :
    max (ipa_resource_group_src_count IPA_VERSION_3_5_1)
        (ipa_resource_group_dst_count IPA_VERSION_3_5_1) = 4 ∧
      rsrc_grp_encoded IPA_VERSION_3_5_1 3 = .ok 3 :=
  ⟨by decide, (rsrc_grp_encoded_legal_group IPA_VERSION_3_5_1 3 (by decide)).1⟩

/-- C15: for `usec <= 134217` the granularity value fits the 5-bit
AGGR_GRANULARITY field `GENMASK(8, 4)`, that is, is at most 31, exactly when
`16 <= usec <= 1015`; for `usec <= 15` the 32-bit result is 0xffffffff. -/
theorem granularity_val_fits_field (usec : Nat) (h : usec ≤ 134217) :
    (ipa_aggr_granularity_val usec ≤ field_mask AGGR_GRANULARITY_FMASK
      ↔ 16 ≤ usec ∧ usec ≤ 1015) ∧
    field_mask AGGR_GRANULARITY_FMASK = 31 ∧
    (usec ≤ 15 → ipa_aggr_granularity_val usec = 0xffffffff) := by
  have hm : field_mask AGGR_GRANULARITY_FMASK = 31 :=
    (low_bit_field_mask_GENMASK 8 (by decide) 4 (by decide)).2
  refine ⟨?_, hm, fun h15 => (granularity_val_underflow usec h15).2⟩
  rw [hm]
  by_cases h16 : 16 ≤ usec
  · rw [(granularity_val_nat usec h16 h).1]
    omega
  · rw [(granularity_val_underflow usec (by omega)).2]
    omega

/-- Witness of C15: 1015 microseconds give 31, 1016 microseconds give 32. -/
theorem granularity_val_fits_field_witness :
    (ipa_aggr_granularity_val 1015 ≤ field_mask AGGR_GRANULARITY_FMASK
      ↔ 16 ≤ 1015 ∧ 1015 ≤ 1015) ∧
    ipa_aggr_granularity_val 1015 = 31 ∧ ipa_aggr_granularity_val 1016 = 32 :=
  ⟨(granularity_val_fits_field 1015 (by decide)).1, by decide, by decide⟩

/-- C19: the granularity value is monotonically non-decreasing on the range
where it is meaningful: for `16 <= a <= b <= 134217` the value for `a` is at
most the value for `b`. -/
theorem granularity_val_monotone (a b : Nat) (ha : 16 ≤ a) (hab : a ≤ b)
    (hb : b ≤ 134217) :
    ipa_aggr_granularity_val a ≤ ipa_aggr_granularity_val b := by
  rw [(granularity_val_nat a ha (by omega)).1, (granularity_val_nat b (by omega) hb).1]
  have : (a * 32000 + 500000) / 1000000 ≤ (b * 32000 + 500000) / 1000000 :=
    Nat.div_le_div_right (by omega)
  omega

/-- Witness of C19: 16 and 134217 microseconds, the ends of the range. -/
theorem granularity_val_monotone_witness :
    ipa_aggr_granularity_val 16 ≤ ipa_aggr_granularity_val 134217 ∧
      ipa_aggr_granularity_val 16 = 0 ∧ ipa_aggr_granularity_val 134217 = 4294 :=
  ⟨granularity_val_monotone 16 134217 (by decide) (by decide) (by decide),
    by decide, by decide⟩

/-- A sum `base + stride * idx` of multiples of 4, wrapped to 32 bits at both
steps, is a multiple of 4. -/
theorem u32_affine_mod_four (b s i : Nat) (hb : b % 4 = 0) (hs : s % 4 = 0) :
    u32 (b + u32 (s * i)) % 4 = 0 := by
  have h4 : (4 : Nat) ∣ 2 ^ 32 := by norm_num
  unfold u32
  rw [Nat.mod_mod_of_dvd _ h4, Nat.add_mod, Nat.mod_mod_of_dvd _ h4, Nat.mul_mod, hb, hs]
  simp

/-- C16: every register offset the header produces is a multiple of 4: every
constant offset, every version-dependent offset on every version value, and
every indexed offset for every index, wrapped to 32 bits or not. -/
theorem reg_offset_aligned (version : ipa_version) (r : Reg) (idx : Nat) :
    reg_offset version r idx % 4 = 0 := by
  cases r <;>
    simp only [reg_offset, ipa_reg_filt_rout_hash_en_offset,
      ipa_reg_filt_rout_hash_flush_offset, ipa_reg_state_aggr_active_offset,
      ipa_reg_idle_indication_cfg_offset,
      IPA_REG_COMP_CFG_OFFSET, IPA_REG_CLKON_CFG_OFFSET, IPA_REG_ROUTE_OFFSET,
      IPA_REG_SHARED_MEM_SIZE_OFFSET, IPA_REG_QSB_MAX_WRITES_OFFSET, IPA_REG_QSB_MAX_READS_OFFSET,
      IPA_REG_BCR_OFFSET, IPA_REG_LOCAL_PKT_PROC_CNTXT_BASE_OFFSET,
      IPA_REG_AGGR_FORCE_CLOSE_OFFSET, IPA_REG_COUNTER_CFG_OFFSET, IPA_REG_TX_CFG_OFFSET,
      IPA_REG_FLAVOR_0_OFFSET,
      IPA_REG_SRC_RSRC_GRP_01_RSRC_TYPE_N_OFFSET, IPA_REG_SRC_RSRC_GRP_23_RSRC_TYPE_N_OFFSET,
      IPA_REG_SRC_RSRC_GRP_45_RSRC_TYPE_N_OFFSET, IPA_REG_DST_RSRC_GRP_01_RSRC_TYPE_N_OFFSET,
      IPA_REG_DST_RSRC_GRP_23_RSRC_TYPE_N_OFFSET, IPA_REG_DST_RSRC_GRP_45_RSRC_TYPE_N_OFFSET,
      IPA_REG_ENDP_INIT_CTRL_N_OFFSET, IPA_REG_ENDP_INIT_CFG_N_OFFSET,
      IPA_REG_ENDP_INIT_HDR_N_OFFSET, IPA_REG_ENDP_INIT_HDR_EXT_N_OFFSET,
      IPA_REG_ENDP_INIT_HDR_METADATA_MASK_N_OFFSET, IPA_REG_ENDP_INIT_MODE_N_OFFSET,
      IPA_REG_ENDP_INIT_AGGR_N_OFFSET, IPA_REG_ENDP_INIT_HOL_BLOCK_EN_N_OFFSET,
      IPA_REG_ENDP_INIT_HOL_BLOCK_TIMER_N_OFFSET, IPA_REG_ENDP_INIT_DEAGGR_N_OFFSET,
      IPA_REG_ENDP_INIT_RSRC_GRP_N_OFFSET, IPA_REG_ENDP_INIT_SEQ_N_OFFSET,
      IPA_REG_ENDP_STATUS_N_OFFSET, IPA_REG_ENDP_FILTER_ROUTER_HSH_CFG_N_OFFSET,
      IPA_REG_IRQ_STTS_EE_N_OFFSET, IPA_REG_IRQ_EN_EE_N_OFFSET, IPA_REG_IRQ_CLR_EE_N_OFFSET,
      IPA_REG_IRQ_UC_EE_N_OFFSET, IPA_REG_IRQ_SUSPEND_INFO_EE_N_OFFSET,
      IPA_REG_IRQ_SUSPEND_EN_EE_N_OFFSET, IPA_REG_IRQ_SUSPEND_CLR_EE_N_OFFSET] <;>
    first
    | exact u32_affine_mod_four _ _ idx (by decide) (by decide)
    | (split <;> decide)

/-! ### Enumerated values and the sequencer nibbles -/

/-- C17: every enumerated field value fits the field it is written to, and
encoding then decoding it returns the enumerator's value: `ipa_cs_offload_en`
in CS_OFFLOAD_EN (bits 2:1), `ipa_mode` in MODE (bits 2:0), `ipa_aggr_en` in
AGGR_EN (bits 1:0) and `ipa_aggr_type` in AGGR_TYPE (bits 4:2). -/
theorem enum_values_fit_fields :
    (∀ e : ipa_cs_offload_en, e.val ≤ field_mask CS_OFFLOAD_EN_FMASK ∧
      (u32_encode_bits e.val CS_OFFLOAD_EN_FMASK).map
        (fun w => u32_get_bits w CS_OFFLOAD_EN_FMASK) = .ok e.val) ∧
    (∀ e : ipa_mode, e.val ≤ field_mask MODE_FMASK ∧
      (u32_encode_bits e.val MODE_FMASK).map
        (fun w => u32_get_bits w MODE_FMASK) = .ok e.val) ∧
    (∀ e : ipa_aggr_en, e.val ≤ field_mask AGGR_EN_FMASK ∧
      (u32_encode_bits e.val AGGR_EN_FMASK).map
        (fun w => u32_get_bits w AGGR_EN_FMASK) = .ok e.val) ∧
    (∀ e : ipa_aggr_type, e.val ≤ field_mask AGGR_TYPE_FMASK ∧
      (u32_encode_bits e.val AGGR_TYPE_FMASK).map
        (fun w => u32_get_bits w AGGR_TYPE_FMASK) = .ok e.val) := by
  decide

/-- Four nibbles put back at bits 0, 4, 8 and 12 give the 16-bit value. -/
theorem nibbles_or (v : Nat) (hv : v < 2 ^ 16) :
    ((v >>> 0 &&& 15) <<< 0) ||| ((v >>> 4 &&& 15) <<< 4) ||| ((v >>> 8 &&& 15) <<< 8)
      ||| ((v >>> 12 &&& 15) <<< 12) = v := by
  apply Nat.eq_of_testBit_eq
  intro i
  have h15 : (15 : Nat) = 2 ^ 4 - 1 := by norm_num
  simp only [Nat.testBit_or, Nat.testBit_shiftLeft, Nat.testBit_and, Nat.testBit_shiftRight, h15,
    Nat.testBit_two_pow_sub_one]
  by_cases hi : i < 16
  · interval_cases i <;> simp
  · have : v.testBit i = false :=
      Nat.testBit_lt_two_pow (lt_of_lt_of_le hv (Nat.pow_le_pow_right (by decide) (by omega)))
    rw [this]
    have h1 : ¬ (i - 0 < 4) := by omega
    have h2 : ¬ (i - 4 < 4) := by omega
    have h3 : ¬ (i - 8 < 4) := by omega
    have h4 : ¬ (i - 12 < 4) := by omega
    simp [h1, h2, h3, h4]
    intro _; omega

/-- A nibble is at most 15. -/
theorem seq_nibble_le (v k : Nat) : seq_nibble v k ≤ 15 := by
  unfold seq_nibble
  have h15 : (0xf : Nat) = 2 ^ 4 - 1 := by norm_num
  rw [h15, Nat.and_pow_two_sub_one_eq_mod]
  have := Nat.mod_lt (v >>> (4 * k)) (Nat.two_pow_pos 4)
  omega

/-- C18: the four ENDP_INIT_SEQ_N fields (HPS_SEQ_TYPE bits 3:0, DPS_SEQ_TYPE
7:4, HPS_REP_SEQ_TYPE 11:8, DPS_REP_SEQ_TYPE 15:12) tile bits 0..15: for every
16-bit sequencer type value `v`, the four nibbles of `v` are encoded into
their fields and the OR of the four encodings is `v`, decoding field `k` of `v`
gives nibble `k`, the four masks are pairwise disjoint and their union is
0xffff. -/
theorem seq_fields_tile (v : Nat) (hv : v < 2 ^ 16) :
    (∃ a b c d,
      u32_encode_bits (seq_nibble v 0) HPS_SEQ_TYPE_FMASK = .ok a ∧
      u32_encode_bits (seq_nibble v 1) DPS_SEQ_TYPE_FMASK = .ok b ∧
      u32_encode_bits (seq_nibble v 2) HPS_REP_SEQ_TYPE_FMASK = .ok c ∧
      u32_encode_bits (seq_nibble v 3) DPS_REP_SEQ_TYPE_FMASK = .ok d ∧
      (a ||| b ||| c ||| d) = v) ∧
    u32_get_bits v HPS_SEQ_TYPE_FMASK = seq_nibble v 0 ∧
    u32_get_bits v DPS_SEQ_TYPE_FMASK = seq_nibble v 1 ∧
    u32_get_bits v HPS_REP_SEQ_TYPE_FMASK = seq_nibble v 2 ∧
    u32_get_bits v DPS_REP_SEQ_TYPE_FMASK = seq_nibble v 3 ∧
    (HPS_SEQ_TYPE_FMASK ||| DPS_SEQ_TYPE_FMASK ||| HPS_REP_SEQ_TYPE_FMASK |||
      DPS_REP_SEQ_TYPE_FMASK) = 0xffff ∧
    [HPS_SEQ_TYPE_FMASK, DPS_SEQ_TYPE_FMASK, HPS_REP_SEQ_TYPE_FMASK,
      DPS_REP_SEQ_TYPE_FMASK].Pairwise disjoint_masks := by
  refine ⟨?_, ?_, ?_, ?_, ?_, by decide, by decide⟩
  · refine ⟨_, _, _, _,
      encode_bits_GENMASK 3 0 _ (by decide) (by decide) (seq_nibble_le v 0),
      encode_bits_GENMASK 7 4 _ (by decide) (by decide) (seq_nibble_le v 1),
      encode_bits_GENMASK 11 8 _ (by decide) (by decide) (seq_nibble_le v 2),
      encode_bits_GENMASK 15 12 _ (by decide) (by decide) (seq_nibble_le v 3), ?_⟩
    unfold seq_nibble
    norm_num [Nat.and_assoc]
    have := nibbles_or v hv
    norm_num at this
    exact this
  · unfold HPS_SEQ_TYPE_FMASK seq_nibble
    rw [get_bits_GENMASK 3 0 v (by decide) (by decide)]
    rfl
  · unfold DPS_SEQ_TYPE_FMASK seq_nibble
    rw [get_bits_GENMASK 7 4 v (by decide) (by decide)]
    rfl
  · unfold HPS_REP_SEQ_TYPE_FMASK seq_nibble
    rw [get_bits_GENMASK 11 8 v (by decide) (by decide)]
    rfl
  · unfold DPS_REP_SEQ_TYPE_FMASK seq_nibble
    rw [get_bits_GENMASK 15 12 v (by decide) (by decide)]
    rfl

/-- Witness of C18: the sequencer type 0x0806 has the nibbles 6, 0, 8, 0, which
are encoded as 0x6, 0x0, 0x800 and 0x0. -/
theorem seq_fields_tile_witness :
    ipa_seq_type.IPA_SEQ_PKT_PROCESS_NO_DEC_NO_UCP_DMAP.val = 0x0806 ∧
    (∃ a b c d,
      u32_encode_bits (seq_nibble 0x0806 0) HPS_SEQ_TYPE_FMASK = .ok a ∧
      u32_encode_bits (seq_nibble 0x0806 1) DPS_SEQ_TYPE_FMASK = .ok b ∧
      u32_encode_bits (seq_nibble 0x0806 2) HPS_REP_SEQ_TYPE_FMASK = .ok c ∧
      u32_encode_bits (seq_nibble 0x0806 3) DPS_REP_SEQ_TYPE_FMASK = .ok d ∧
      (a ||| b ||| c ||| d) = 0x0806) ∧
    u32_encode_bits (seq_nibble 0x0806 0) HPS_SEQ_TYPE_FMASK = .ok 0x6 ∧
    u32_encode_bits (seq_nibble 0x0806 2) HPS_REP_SEQ_TYPE_FMASK = .ok 0x800 :=
  ⟨rfl, (seq_fields_tile 0x0806 (by decide)).1, by decide, by decide⟩

end IpaReg

namespace Mt76Pci

open IpaReg (u32)

/-! ### ASPM disable and the Link Control word -/

/-- A truncated word is below `2^32`. -/
theorem u32_lt (x : Nat) : u32 x < 2 ^ 32 := Nat.mod_lt _ (Nat.two_pow_pos 32)

/-- Truncation leaves a 32-bit word as it is. -/
theorem u32_of_lt {x : Nat} (h : x < 2 ^ 32) : u32 x = x := Nat.mod_eq_of_lt h

/-- Bit `i` of the 32-bit complement of a mask. -/
theorem not32_testBit (x i : Nat) :
    (not32 x).testBit i = (decide (i < 32) && !(u32 x).testBit i) := by
  have hF : (0xffffffff : Nat) = 2 ^ 32 - 1 := by norm_num
  unfold not32
  rw [Nat.testBit_xor, hF, Nat.testBit_two_pow_sub_one]
  by_cases hi : i < 32
  · simp [hi]
  · have : (u32 x).testBit i = false :=
      Nat.testBit_lt_two_pow (lt_of_lt_of_le (u32_lt x) (Nat.pow_le_pow_right (by decide) (by omega)))
    simp [hi, this]

/-- Clearing the bits of a mask leaves every bit outside the mask. -/
theorem and_not32_testBit_of_not_mem (w c i : Nat) (hw : w < 2 ^ 32)
    (hc : c.testBit i = false) : (w &&& not32 c).testBit i = w.testBit i := by
  rw [Nat.testBit_and, not32_testBit]
  by_cases hi : i < 32
  · have : (u32 c).testBit i = false := by
      unfold u32; rw [Nat.testBit_mod_two_pow]; simp [hc]
    simp [hi, this]
  · have : w.testBit i = false :=
      Nat.testBit_lt_two_pow (lt_of_lt_of_le hw (Nat.pow_le_pow_right (by decide) (by omega)))
    simp [this]

/-- Clearing the bits of a mask leaves none of them set. -/
theorem and_not32_testBit_of_mem (w c i : Nat) (hc : c.testBit i = true) :
    (w &&& not32 c).testBit i = false := by
  rw [Nat.testBit_and, not32_testBit]
  by_cases hi : i < 32
  · have : (u32 c).testBit i = true := by
      unfold u32; rw [Nat.testBit_mod_two_pow]; simp [hc, hi]
    simp [this]
  · simp [hi]

/-- A 32-bit word without any bit of the mask is its own value with the mask
cleared. -/
theorem and_not32_of_and_eq_zero (w c : Nat) (hw : w < 2 ^ 32) (h : w &&& c = 0) :
    w &&& not32 c = w := by
  apply Nat.eq_of_testBit_eq
  intro i
  by_cases hc : c.testBit i = true
  · have hz : (w &&& c).testBit i = false := by rw [h]; simp
    rw [Nat.testBit_and, hc] at hz
    rw [and_not32_testBit_of_mem w c i hc]
    simpa using hz.symm
  · exact and_not32_testBit_of_not_mem w c i hw (by simpa using hc)

/-- The L1 step of the disable path: the device is returned, and its Link
Control word is the prior word with the ASPM control bits cleared if ASPM
support is advertised, the prior word otherwise. -/
theorem config_L1_disable {σ : Type} (R : pci_regs) (ops : pci_ops σ) (d : pci_dev σ)
    (hrw : ∀ s pos val,
      ops.read_config_dword (ops.write_config_dword s pos val) pos = u32 val) :
    ∃ d₁, _mt76_pci_config_L1 R ops (some d) 0 = some d₁ ∧ d₁.pcie_cap = d.pcie_cap ∧
      u32 (ops.read_config_dword d₁.hw (d.pcie_cap + R.PCI_EXP_LNKCTL)) =
        if u32 (ops.read_config_dword d.hw (d.pcie_cap + R.PCI_EXP_LNKCAP))
            &&& R.PCI_EXP_LNKCAP_ASPMS = 0
        then u32 (ops.read_config_dword d.hw (d.pcie_cap + R.PCI_EXP_LNKCTL))
        else u32 (ops.read_config_dword d.hw (d.pcie_cap + R.PCI_EXP_LNKCTL))
          &&& not32 R.PCI_EXP_LNKCTL_ASPMC := by
  simp only [_mt76_pci_config_L1]
  by_cases hcap : u32 (ops.read_config_dword d.hw (d.pcie_cap + R.PCI_EXP_LNKCAP))
      &&& R.PCI_EXP_LNKCAP_ASPMS = 0
  · rw [if_pos hcap, if_pos hcap]
    exact ⟨d, rfl, rfl, rfl⟩
  · rw [if_neg hcap, if_neg hcap]
    simp only [ne_eq, not_true_eq_false, if_false]
    by_cases hctl : u32 (ops.read_config_dword d.hw (d.pcie_cap + R.PCI_EXP_LNKCTL))
        &&& R.PCI_EXP_LNKCTL_ASPMC = 0
    · rw [if_pos hctl]
      exact ⟨d, rfl, rfl, (and_not32_of_and_eq_zero _ _ (u32_lt _) hctl).symm⟩
    · rw [if_neg hctl]
      refine ⟨_, rfl, rfl, ?_⟩
      simp only []
      rw [hrw, u32_of_lt (u32_lt _)]
      exact u32_of_lt (lt_of_le_of_lt Nat.and_le_left (u32_lt _))

/-- The L1 substates step of the disable path: the device is returned, and
every configuration word other than the L1 substates control word is as
before. -/
theorem config_L1ss_disable_frame {σ : Type} (R : pci_regs) (ops : pci_ops σ)
    (d : pci_dev σ) (pos : Nat)
    (hfr : ∀ s pos pos' val, pos' ≠ pos →
      ops.read_config_dword (ops.write_config_dword s pos val) pos'
        = ops.read_config_dword s pos')
    (hpos : ops.find_ext_capability d.hw R.PCI_EXT_CAP_ID_L1SS + R.PCI_L1SS_CTL1 ≠ pos) :
    ∃ d₂, _mt76_pci_config_L1ss R ops (some d) 0 = some d₂ ∧ d₂.pcie_cap = d.pcie_cap ∧
      ops.read_config_dword d₂.hw pos = ops.read_config_dword d.hw pos := by
  simp only [_mt76_pci_config_L1ss, ne_eq, not_true_eq_false, if_false]
  split_ifs
  · exact ⟨d, rfl, rfl, rfl⟩
  · exact ⟨d, rfl, rfl, rfl⟩
  · exact ⟨_, rfl, rfl, hfr _ _ _ _ (Ne.symm hpos)⟩

/-- C20: for a non-null device, `mt76_pci_disable_aspm` returns with the 32-bit
Link Control word equal to its prior value with the ASPM control bits
(`PCI_EXP_LNKCTL_ASPMC`) cleared when the Link Capabilities word advertises
ASPM support (`PCI_EXP_LNKCAP_ASPMS` non-zero), and equal to its prior value
when it does not; no bit outside `PCI_EXP_LNKCTL_ASPMC` changes.  The
configuration accesses are any functions for which a word written is the word
read back and a write leaves the other offsets alone, and the L1 substates
control word is not the Link Control word. -/
theorem disable_aspm_link_control {σ : Type} (R : pci_regs) (ops : pci_ops σ)
    (d : pci_dev σ)
    (hrw : ∀ s pos val,
      ops.read_config_dword (ops.write_config_dword s pos val) pos = u32 val)
    (hfr : ∀ s pos pos' val, pos' ≠ pos →
      ops.read_config_dword (ops.write_config_dword s pos val) pos'
        = ops.read_config_dword s pos')
    (hl1ss : ∀ s, ops.find_ext_capability s R.PCI_EXT_CAP_ID_L1SS + R.PCI_L1SS_CTL1
      ≠ d.pcie_cap + R.PCI_EXP_LNKCTL) :
    ∃ d', mt76_pci_disable_aspm R ops (some d) = some d' ∧
      (u32 (ops.read_config_dword d.hw (d.pcie_cap + R.PCI_EXP_LNKCAP))
          &&& R.PCI_EXP_LNKCAP_ASPMS ≠ 0 →
        u32 (ops.read_config_dword d'.hw (d.pcie_cap + R.PCI_EXP_LNKCTL))
          = u32 (ops.read_config_dword d.hw (d.pcie_cap + R.PCI_EXP_LNKCTL))
              &&& not32 R.PCI_EXP_LNKCTL_ASPMC ∧
        ∀ i, R.PCI_EXP_LNKCTL_ASPMC.testBit i = true →
          (u32 (ops.read_config_dword d'.hw (d.pcie_cap + R.PCI_EXP_LNKCTL))).testBit i
            = false) ∧
      (u32 (ops.read_config_dword d.hw (d.pcie_cap + R.PCI_EXP_LNKCAP))
          &&& R.PCI_EXP_LNKCAP_ASPMS = 0 →
        u32 (ops.read_config_dword d'.hw (d.pcie_cap + R.PCI_EXP_LNKCTL))
          = u32 (ops.read_config_dword d.hw (d.pcie_cap + R.PCI_EXP_LNKCTL))) ∧
      ∀ i, R.PCI_EXP_LNKCTL_ASPMC.testBit i = false →
        (u32 (ops.read_config_dword d'.hw (d.pcie_cap + R.PCI_EXP_LNKCTL))).testBit i
          = (u32 (ops.read_config_dword d.hw (d.pcie_cap + R.PCI_EXP_LNKCTL))).testBit i := by
  obtain ⟨d₁, h₁, _, hctl⟩ := config_L1_disable R ops d hrw
  obtain ⟨d₂, h₂, _, hframe⟩ := config_L1ss_disable_frame R ops d₁
    (d.pcie_cap + R.PCI_EXP_LNKCTL) hfr (hl1ss d₁.hw)
  refine ⟨d₂, ?_, ?_, ?_, ?_⟩
  · unfold mt76_pci_disable_aspm
    rw [h₁, h₂]
  · intro hcap
    rw [hframe, hctl, if_neg hcap]
    exact ⟨rfl, fun i hi => and_not32_testBit_of_mem _ _ i hi⟩
  · intro hcap
    rw [hframe, hctl, if_pos hcap]
  · intro i hi
    rw [hframe, hctl]
    split
    · rfl
    · exact and_not32_testBit_of_not_mem _ _ i (u32_lt _) hi

/-- Witness of C20: a device with its PCIe capability at 0x80 that advertises
ASPM and has both ASPM control bits set; Link Control / Status goes from
0x10120143 to 0x10120140. -/
theorem disable_aspm_link_control_witness :
    (∃ d', mt76_pci_disable_aspm linux_pci_regs (map_ops 0x148)
        (some { pcie_cap := 0x80, hw := sample_config }) = some d' ∧
      u32 (d'.hw 0x90) = 0x10120143 &&& not32 0x0003) ∧
    ((mt76_pci_disable_aspm linux_pci_regs (map_ops 0x148)
        (some { pcie_cap := 0x80, hw := sample_config })).map (fun d' => d'.hw 0x90))
      = some 0x10120140 := by
  constructor
  · obtain ⟨d', h, hadv, _, _⟩ := disable_aspm_link_control linux_pci_regs (map_ops 0x148)
      { pcie_cap := 0x80, hw := sample_config }
      (by intro s pos val; simp [map_ops])
      (by intro s pos pos' val hne; simp [map_ops, hne])
      (by intro s; show 0x148 + 0x08 ≠ 0x80 + 16; decide)
    exact ⟨d', h, (hadv (by decide)).1⟩
  · decide

end Mt76Pci
